import Mathlib

/-!
Verification of the BabaSolver game-state transition engine and search
helpers, shallowly embedded from `BabaSolverCMake/GameState.cpp` and
`BabaSolver/Solver.cpp`.

The grid is embedded as a total function `Int → Int → Cell`; the C++ code
stores a fixed `18 × 18` array (`GRID_HEIGHT = GRID_WIDTH = 18`), which
corresponds to functions whose support lies inside `[0,18) × [0,18)`
(predicate `InBoundsZero` below).  A cell is the `uint16_t` bitmask of the
C++ code, embedded as `Nat`.  The recursive push-chain resolver
`CheckCellAndMoveObjects` is embedded with an explicit fuel parameter; the
C++ recursion always stops at the grid boundary (`WillGoOutOfBounds`), so a
fuel of `18` (the grid diameter) never runs out on in-bounds states, and an
exhausted fuel reports failure with the state unchanged, matching the
"failed move changes nothing" behaviour of the source.
-/

namespace BabaSolver

/-- The game-object kinds, mirroring `enum class GameObject` in
`GameState.h` (field order gives the bit index used by the cell bitmask). -/
inductive GameObject : Type
  | BABA
  | IMMOVABLE
  | TILE
  | ROCK
  | DOOR
  | KEY
  | ROCK_TEXT
  | IS_TEXT
  | PUSH_TEXT
deriving DecidableEq, Repr

/-- Bit index of an object kind, i.e. `static_cast<uint16_t>(obj)`. -/
def GameObject.idx : GameObject → Nat
  | .BABA => 0
  | .IMMOVABLE => 1
  | .TILE => 2
  | .ROCK => 3
  | .DOOR => 4
  | .KEY => 5
  | .ROCK_TEXT => 6
  | .IS_TEXT => 7
  | .PUSH_TEXT => 8

/-- A grid cell: the `uint16_t` bitmask of object kinds. -/
abbrev Cell := Nat

/-- `CellIsEmpty` (does not check for Babas, which are not stored in cells). -/
def cellIsEmpty (cell : Cell) : Bool := cell == 0

/-- `CellContainsGameObject`: `(cell & (1 << obj)) != 0`. -/
def cellContainsGameObject (cell : Cell) (obj : GameObject) : Bool :=
  cell.testBit obj.idx

/-- `MOVABLE_OBJECT_BITMASK`: key, rock-text, is-text and push-text bits. -/
def MOVABLE_OBJECT_BITMASK : Nat :=
  (1 <<< GameObject.KEY.idx) ||| (1 <<< GameObject.ROCK_TEXT.idx) |||
    (1 <<< GameObject.IS_TEXT.idx) ||| (1 <<< GameObject.PUSH_TEXT.idx)

/-- `CellContainsMovableObject`: an always-movable object, or a rock while
the "rock is push" rule is active. -/
def cellContainsMovableObject (cell : Cell) (rock_is_push_active : Bool) : Bool :=
  if cell &&& MOVABLE_OBJECT_BITMASK != 0 then true
  else if rock_is_push_active && cellContainsGameObject cell .ROCK then true
  else false

/-- `AddToCell` / `AddToCellInPlace`: `cell |= 1 << obj`. -/
def addToCell (cell : Cell) (obj : GameObject) : Cell :=
  cell ||| (1 <<< obj.idx)

/-- `RemoveFromCell` / `RemoveFromCellInPlace`: `cell &= ~(1 << obj)` on a
`uint16_t`, i.e. masking with `0xFFFF ^ (1 << obj)`. -/
def removeFromCell (cell : Cell) (obj : GameObject) : Cell :=
  cell &&& (65535 ^^^ (1 <<< obj.idx))

/-- Grid dimensions (`GRID_HEIGHT = GRID_WIDTH = 18`). -/
def GRID_HEIGHT : Int := 18

def GRID_WIDTH : Int := 18

/-- The door's fixed coordinates (`DOOR_I`, `DOOR_J`). -/
def DOOR_I : Int := 12

def DOOR_J : Int := 4

/-- The dead-Baba sentinel (`BABA_DEAD = -1`). -/
def BABA_DEAD : Int := -1

/-- A point in the grid (`struct Coordinate`, a pair of `int8_t`). -/
structure Coordinate where
  i : Int
  j : Int
deriving DecidableEq, Repr

/-- A move direction.  The C++ enum also has a `NO_DIRECTION` filler used
only to initialise the fixed-size move-history array, which is embedded
here as a list and needs no filler. -/
inductive Direction : Type
  | UP
  | RIGHT
  | DOWN
  | LEFT
deriving DecidableEq, Repr

/-- The grid: the `uint16_t _grid[GRID_HEIGHT][GRID_WIDTH]` array, embedded
as a total function that is zero outside the array bounds. -/
abbrev Grid := Int → Int → Cell

/-- Functional update of one grid cell. -/
def setCell (g : Grid) (i j : Int) (v : Cell) : Grid :=
  fun a b => if a = i ∧ b = j then v else g a b

/-- `class GameState`: grid, the two Baba positions, turn counter, move
history, and the cached key / is-text coordinates and rule flag. -/
structure GameState where
  grid : Grid
  baba1 : Coordinate
  baba2 : Coordinate
  turn : Nat
  moves : List Direction
  key : Coordinate
  isText : Coordinate
  rockIsPushActive : Bool

/-- `WillGoOutOfBounds`: the step from `(i, j)` by `(delta_i, delta_j)`
would leave the grid. -/
def willGoOutOfBounds (i j delta_i delta_j : Int) : Bool :=
  (i == 0 && delta_i < 0) || (i == GRID_HEIGHT - 1 && delta_i > 0) ||
    (j == 0 && delta_j < 0) || (j == GRID_WIDTH - 1 && delta_j > 0)

/-- One step of the `for (GameObject obj : ALWAYS_MOVABLE_OBJECTS)` loop in
`CheckCellAndMoveObjects`: if `obj` is in cell `(i, j)`, relocate it to
`(ni, nj)` and update the cached is-text / key coordinates. -/
def moveObjStep (s : GameState) (i j ni nj : Int) (obj : GameObject) : GameState :=
  if cellContainsGameObject (s.grid i j) obj then
    let g1 := setCell s.grid i j (removeFromCell (s.grid i j) obj)
    let g2 := setCell g1 ni nj (addToCell (g1 ni nj) obj)
    let s1 := { s with grid := g2 }
    if obj = .IS_TEXT then { s1 with isText := ⟨ni, nj⟩ }
    else if obj = .KEY then { s1 with key := ⟨ni, nj⟩ }
    else s1
  else s

/-- The full `ALWAYS_MOVABLE_OBJECTS` loop, in the array order of the
source: key, rock-text, is-text, push-text. -/
def moveAlwaysMovables (s : GameState) (i j ni nj : Int) : GameState :=
  moveObjStep (moveObjStep (moveObjStep (moveObjStep s i j ni nj .KEY)
    i j ni nj .ROCK_TEXT) i j ni nj .IS_TEXT) i j ni nj .PUSH_TEXT

/-- The rock-relocation step guarded by `_rock_is_push_active` at the end of
`CheckCellAndMoveObjects`. -/
def moveRock (s : GameState) (i j ni nj : Int) : GameState :=
  let g1 := setCell s.grid i j (removeFromCell (s.grid i j) .ROCK)
  let g2 := setCell g1 ni nj (addToCell (g1 ni nj) .ROCK)
  { s with grid := g2 }

/-- `CheckCellAndMoveObjects`.  Checks whether cell `(i, j)` can be entered
when moving by `(delta_i, delta_j)` and, on success, relocates the movable
objects of `(i, j)` one cell further.  `prev_cell` is the bitmask of the
cell being vacated.  The `fuel` bounds the recursion depth; the C++
recursion is bounded by the grid diameter, so a fuel of 18 is never
exhausted on states whose content lies inside the grid. -/
def checkCellAndMoveObjects :
    Nat → GameState → Int → Int → Int → Int → Cell → Bool × GameState
  | 0, s, _, _, _, _, _ => (false, s)
  | fuel + 1, s, i, j, delta_i, delta_j, prev_cell =>
    let cell := s.grid i j
    if cellContainsGameObject cell .IMMOVABLE then (false, s)
    else if cellContainsGameObject cell .DOOR then
      -- Edge case: the key alone may be pushed into the door.
      if cellContainsGameObject prev_cell .KEY &&
          !cellContainsMovableObject (removeFromCell prev_cell .KEY) s.rockIsPushActive then
        (true, s)
      else (false, s)
    else if !cellContainsMovableObject cell s.rockIsPushActive then (true, s)
    else if willGoOutOfBounds i j delta_i delta_j then (false, s)
    else
      let ni := i + delta_i
      let nj := j + delta_j
      match checkCellAndMoveObjects fuel s ni nj delta_i delta_j cell with
      | (false, s1) => (false, s1)
      | (true, s1) =>
        let s2 := moveAlwaysMovables s1 i j ni nj
        let s3 :=
          if s2.rockIsPushActive && cellContainsGameObject cell .ROCK then
            moveRock s2 i j ni nj
          else s2
        (true, s3)

/-- The fuel used by `MoveBaba` for the resolver: the grid diameter. -/
def CHAIN_FUEL : Nat := 18

/-- The tail of `MoveBaba` shared by the four directions: run the resolver
on the destination cell and advance the Baba on success.  `prev_cell` is 0
so that a Baba standing on the key does not move it. -/
def moveBabaGo (s : GameState) (baba : Coordinate) (delta_i delta_j : Int) :
    GameState × Coordinate :=
  match checkCellAndMoveObjects CHAIN_FUEL s (baba.i + delta_i) (baba.j + delta_j)
      delta_i delta_j 0 with
  | (false, s1) => (s1, baba)
  | (true, s1) => (s1, ⟨baba.i + delta_i, baba.j + delta_j⟩)

/-- `MoveBaba`: move one Baba in the given direction, pushing objects.
Returns the updated state together with the Baba's updated coordinate
(the C++ code mutates the coordinate through a reference). -/
def moveBaba (s : GameState) (baba : Coordinate) (direction : Direction) : GameState × Coordinate :=
  if baba.i = BABA_DEAD then (s, baba)
  else
    match direction with
    | .UP => if baba.i = 0 then (s, baba) else moveBabaGo s baba (-1) 0
    | .RIGHT => if baba.j = GRID_WIDTH - 1 then (s, baba) else moveBabaGo s baba 0 1
    | .DOWN => if baba.i = GRID_HEIGHT - 1 then (s, baba) else moveBabaGo s baba 1 0
    | .LEFT => if baba.j = 0 then (s, baba) else moveBabaGo s baba 0 (-1)

/-- `AllBabasAlive`. -/
def allBabasAlive (s : GameState) : Bool :=
  s.baba1.i != BABA_DEAD && s.baba2.i != BABA_DEAD

/-- `BabasOnSameSpace`. -/
def babasOnSameSpace (s : GameState) : Bool :=
  if s.baba1.i == BABA_DEAD || s.baba2.i == BABA_DEAD then false
  else s.baba1.i == s.baba2.i && s.baba1.j == s.baba2.j

/-- `CheckRockIsPushIntact`: the "ROCK IS PUSH" text blocks are adjacent in
a line, checked around the cached is-text coordinate. -/
def checkRockIsPushIntact (s : GameState) : Bool :=
  (if s.isText.i > 0 && s.isText.i < GRID_HEIGHT - 1 then
    cellContainsGameObject (s.grid (s.isText.i - 1) s.isText.j) .ROCK_TEXT &&
      cellContainsGameObject (s.grid (s.isText.i + 1) s.isText.j) .PUSH_TEXT
  else false) ||
  (if s.isText.j > 0 && s.isText.j < GRID_WIDTH - 1 then
    cellContainsGameObject (s.grid s.isText.i (s.isText.j - 1)) .ROCK_TEXT &&
      cellContainsGameObject (s.grid s.isText.i (s.isText.j + 1)) .PUSH_TEXT
  else false)

/-- The first death check of `RecalculateState`: Baba #1 dies on an empty
cell. -/
def killBaba1 (s : GameState) : GameState :=
  if s.baba1.i ≠ BABA_DEAD ∧ cellIsEmpty (s.grid s.baba1.i s.baba1.j) then
    { s with baba1 := ⟨BABA_DEAD, BABA_DEAD⟩ }
  else s

/-- The second death check of `RecalculateState`: Baba #2 dies on an empty
cell (read from the state after the first check, whose grid and Baba #2
are unchanged, as in the sequenced C++ statements). -/
def killBaba2 (s : GameState) : GameState :=
  if s.baba2.i ≠ BABA_DEAD ∧ cellIsEmpty (s.grid s.baba2.i s.baba2.j) then
    { s with baba2 := ⟨BABA_DEAD, BABA_DEAD⟩ }
  else s

/-- `RecalculateState`: mark Babas standing on an empty cell dead (unless
the two Babas share a cell), then recompute the rule-activation flag. -/
def recalculateState (s : GameState) : GameState :=
  let s1 := if babasOnSameSpace s then s else killBaba2 (killBaba1 s)
  { s1 with rockIsPushActive := checkRockIsPushIntact s1 }

/-- `ApplyMove`: copy the state, move both Babas, recompute derived state,
and record the move. -/
def applyMove (s : GameState) (direction : Direction) : GameState :=
  let r1 := moveBaba s s.baba1 direction
  let sA := { r1.1 with baba1 := r1.2 }
  let r2 := moveBaba sA sA.baba2 direction
  let sB := { r2.1 with baba2 := r2.2 }
  let sC := recalculateState sB
  { sC with moves := sC.moves ++ [direction], turn := sC.turn + 1 }

/-- `HaveWon`: the door's (fixed) cell contains the key. -/
def haveWon (s : GameState) : Bool :=
  cellContainsGameObject (s.grid DOOR_I DOOR_J) .KEY

/-! ### Bit-level lemmas about cells -/

lemma GameObject.idx_lt (o : GameObject) : o.idx < 9 := by cases o <;> decide

lemma decide_idx_eq (o m : GameObject) : decide (o.idx = m.idx) = (o == m) := by
  cases o <;> cases m <;> decide

lemma cellContainsGameObject_addToCell (c : Cell) (o m : GameObject) :
    cellContainsGameObject (addToCell c o) m
      = (cellContainsGameObject c m || o == m) := by
  unfold cellContainsGameObject addToCell
  rw [Nat.testBit_or, Nat.one_shiftLeft, Nat.testBit_two_pow, decide_idx_eq]

lemma cellContainsGameObject_removeFromCell (c : Cell) (o m : GameObject) :
    cellContainsGameObject (removeFromCell c o) m
      = (cellContainsGameObject c m && !(o == m)) := by
  unfold cellContainsGameObject removeFromCell
  rw [Nat.testBit_and, Nat.testBit_xor, Nat.one_shiftLeft, Nat.testBit_two_pow]
  have h1 : (65535 : Nat) = 2 ^ 16 - 1 := by norm_num
  have h2 : m.idx < 16 := lt_trans m.idx_lt (by norm_num)
  rw [h1, Nat.testBit_two_pow_sub_one, decide_eq_true h2, ← decide_idx_eq o m]
  cases c.testBit m.idx <;> cases h3 : decide (o.idx = m.idx) <;> simp

lemma testBit_480 (i : Nat) :
    (480 : Nat).testBit i
      = (decide (i = 5) || decide (i = 6) || decide (i = 7) || decide (i = 8)) := by
  rcases Nat.lt_or_ge i 9 with h | h
  · interval_cases i <;> decide
  · have h1 : (480 : Nat).testBit i = false := by
      apply Nat.testBit_lt_two_pow
      calc (480 : Nat) < 2 ^ 9 := by norm_num
        _ ≤ 2 ^ i := Nat.pow_le_pow_right (by norm_num) h
    rw [h1]
    symm
    simp only [Bool.or_eq_false_iff, decide_eq_false_iff_not]
    omega

lemma and_480_ne_zero (c : Cell) :
    (c &&& 480 != 0)
      = (c.testBit 5 || c.testBit 6 || c.testBit 7 || c.testBit 8) := by
  by_cases h : c &&& 480 = 0
  · have hb : ∀ k, (c &&& 480).testBit k = false := by
      intro k; rw [h]; exact Nat.zero_testBit k
    have hk : ∀ k, k = 5 ∨ k = 6 ∨ k = 7 ∨ k = 8 → c.testBit k = false := by
      intro k hks
      have := hb k
      rw [Nat.testBit_and, testBit_480] at this
      rcases hks with h' | h' | h' | h' <;> subst h' <;> simpa using this
    simp [h, hk 5 (by omega), hk 6 (by omega), hk 7 (by omega), hk 8 (by omega)]
  · have hne : (c &&& 480 != 0) = true := by simpa using h
    rw [hne]
    have hnall : ¬ ∀ k, (c &&& 480).testBit k = Nat.testBit 0 k := fun hall =>
      h (Nat.eq_of_testBit_eq hall)
    push_neg at hnall
    obtain ⟨k, hk0⟩ := hnall
    rw [Nat.zero_testBit] at hk0
    have hk : (c &&& 480).testBit k = true := by
      cases hv : (c &&& 480).testBit k
      · exact absurd hv hk0
      · rfl
    rw [Nat.testBit_and, testBit_480] at hk
    have hks : k = 5 ∨ k = 6 ∨ k = 7 ∨ k = 8 := by
      rcases Bool.and_eq_true_iff.mp hk with ⟨-, h2⟩
      have := by simpa using h2
      tauto
    symm
    rcases hks with h' | h' | h' | h' <;> subst h' <;>
      simp [Bool.and_eq_true_iff.mp hk |>.1]

lemma cellContainsMovableObject_eq (c : Cell) (a : Bool) :
    cellContainsMovableObject c a
      = (cellContainsGameObject c .KEY || cellContainsGameObject c .ROCK_TEXT ||
          cellContainsGameObject c .IS_TEXT || cellContainsGameObject c .PUSH_TEXT ||
          (a && cellContainsGameObject c .ROCK)) := by
  have hm : MOVABLE_OBJECT_BITMASK = 480 := by decide
  unfold cellContainsMovableObject
  rw [hm, and_480_ne_zero]
  unfold cellContainsGameObject GameObject.idx
  cases c.testBit 5 <;> cases c.testBit 6 <;> cases c.testBit 7 <;> cases c.testBit 8 <;>
    cases a <;> cases c.testBit 3 <;> rfl

lemma setCell_same (g : Grid) (i j : Int) (v : Cell) : setCell g i j v i j = v := by
  simp [setCell]

lemma setCell_other (g : Grid) (i j a b : Int) (v : Cell) (h : ¬(a = i ∧ b = j)) :
    setCell g i j v a b = g a b := by
  simp [setCell, h]

/-! ### C1: the win predicate reads only the door's fixed cell -/

/-- C1.  `HaveWon` is true iff the grid cell at the door's fixed coordinate
(row 12, column 4) contains the key, and the two Baba positions have no
effect on the result. -/
theorem haveWon_iff_key_at_door (s : GameState) (b1 b2 : Coordinate) :
    (haveWon s = true ↔ cellContainsGameObject (s.grid 12 4) .KEY = true) ∧
      haveWon { s with baba1 := b1, baba2 := b2 } = haveWon s :=
  ⟨Iff.rfl, rfl⟩

/-! ### C5: death recalculation and the shared-cell "invincibility" -/

/-- C5.  If the two Babas share a (live) cell, the recalculation marks
neither dead, regardless of the cell's contents; a lone live Baba on an
empty cell is marked dead. -/
lemma killBaba1_grid (s : GameState) : (killBaba1 s).grid = s.grid := by
  unfold killBaba1
  split_ifs <;> rfl

lemma killBaba1_baba2 (s : GameState) : (killBaba1 s).baba2 = s.baba2 := by
  unfold killBaba1
  split_ifs <;> rfl

lemma killBaba2_grid (s : GameState) : (killBaba2 s).grid = s.grid := by
  unfold killBaba2
  split_ifs <;> rfl

lemma killBaba2_baba1 (s : GameState) : (killBaba2 s).baba1 = s.baba1 := by
  unfold killBaba2
  split_ifs <;> rfl

lemma recalculateState_baba1 (s : GameState) :
    (recalculateState s).baba1
      = (if babasOnSameSpace s then s else killBaba2 (killBaba1 s)).baba1 := rfl

lemma recalculateState_baba2 (s : GameState) :
    (recalculateState s).baba2
      = (if babasOnSameSpace s then s else killBaba2 (killBaba1 s)).baba2 := rfl

theorem recalculateState_death (s : GameState) :
    (babasOnSameSpace s = true →
      (recalculateState s).baba1 = s.baba1 ∧ (recalculateState s).baba2 = s.baba2) ∧
    (babasOnSameSpace s = false → s.baba1.i ≠ BABA_DEAD →
      s.grid s.baba1.i s.baba1.j = 0 →
      (recalculateState s).baba1 = ⟨BABA_DEAD, BABA_DEAD⟩) ∧
    (babasOnSameSpace s = false → s.baba2.i ≠ BABA_DEAD →
      s.grid s.baba2.i s.baba2.j = 0 →
      (recalculateState s).baba2 = ⟨BABA_DEAD, BABA_DEAD⟩) := by
  refine ⟨fun h => ?_, fun h h1 h2 => ?_, fun h h1 h2 => ?_⟩
  · rw [recalculateState_baba1, recalculateState_baba2, if_pos h]
    exact ⟨rfl, rfl⟩
  · rw [recalculateState_baba1, if_neg (by simp [h]), killBaba2_baba1]
    unfold killBaba1
    rw [if_pos (And.intro h1 (by simp [cellIsEmpty, h2]))]
  · rw [recalculateState_baba2, if_neg (by simp [h])]
    unfold killBaba2
    rw [killBaba1_grid, killBaba1_baba2,
      if_pos (And.intro h1 (by simp [cellIsEmpty, h2]))]

/-- A grid with no objects anywhere. -/
def emptyGrid : Grid := fun _ _ => 0

/-- Concrete state with both Babas on the same empty cell. -/
def sharedCellState : GameState :=
  { grid := emptyGrid, baba1 := ⟨2, 2⟩, baba2 := ⟨2, 2⟩, turn := 0, moves := [],
    key := ⟨11, 12⟩, isText := ⟨4, 12⟩, rockIsPushActive := true }

/-- Concrete state with the Babas on distinct empty cells. -/
def loneBabaState : GameState :=
  { grid := emptyGrid, baba1 := ⟨2, 2⟩, baba2 := ⟨9, 9⟩, turn := 0, moves := [],
    key := ⟨11, 12⟩, isText := ⟨4, 12⟩, rockIsPushActive := true }

theorem recalculateState_death_witness :
    (babasOnSameSpace sharedCellState = true ∧
      (recalculateState sharedCellState).baba1 = sharedCellState.baba1 ∧
      (recalculateState sharedCellState).baba2 = sharedCellState.baba2) ∧
    (babasOnSameSpace loneBabaState = false ∧ loneBabaState.baba1.i ≠ BABA_DEAD ∧
      loneBabaState.grid loneBabaState.baba1.i loneBabaState.baba1.j = 0 ∧
      (recalculateState loneBabaState).baba1 = ⟨BABA_DEAD, BABA_DEAD⟩) :=
  ⟨⟨by decide, (recalculateState_death sharedCellState).1 (by decide)⟩,
    ⟨by decide, by decide, rfl,
      (recalculateState_death loneBabaState).2.1 (by decide) (by decide) rfl⟩⟩

/-! ### Geometry helpers for the chain lemmas -/

/-- A coordinate inside the `18 × 18` array bounds. -/
def InWindow (a b : Int) : Prop := 0 ≤ a ∧ a < 18 ∧ 0 ≤ b ∧ b < 18

/-- A grid whose content lies inside the array bounds, as the C++ fixed-size
array enforces by construction. -/
def InBoundsZero (g : Grid) : Prop := ∀ a b : Int, ¬InWindow a b → g a b = 0

/-- The four direction deltas used by `MoveBaba`. -/
def IsUnitDelta (di dj : Int) : Prop :=
  (di = -1 ∧ dj = 0) ∨ (di = 1 ∧ dj = 0) ∨ (di = 0 ∧ dj = 1) ∨ (di = 0 ∧ dj = -1)

/-- The forward ray of cells a push chain starting at `(i, j)` can touch. -/
def OnRay (i j di dj a b : Int) : Prop :=
  ∃ t : Nat, a = i + t * di ∧ b = j + t * dj

/-- The object kinds a push chain can relocate. -/
def IsCarriedObj (o : GameObject) : Prop :=
  o = .KEY ∨ o = .ROCK_TEXT ∨ o = .IS_TEXT ∨ o = .PUSH_TEXT ∨ o = .ROCK

lemma movable_ne_zero {c : Cell} {a : Bool}
    (h : cellContainsMovableObject c a = true) : c ≠ 0 := by
  rintro rfl
  rw [cellContainsMovableObject_eq] at h
  simp [cellContainsGameObject, Nat.zero_testBit] at h

/-! ### Effect of the object-relocation steps on the state -/

lemma moveObjStep_ctx (s : GameState) (i j ni nj : Int) (o : GameObject) :
    (moveObjStep s i j ni nj o).baba1 = s.baba1 ∧
    (moveObjStep s i j ni nj o).baba2 = s.baba2 ∧
    (moveObjStep s i j ni nj o).turn = s.turn ∧
    (moveObjStep s i j ni nj o).moves = s.moves ∧
    (moveObjStep s i j ni nj o).rockIsPushActive = s.rockIsPushActive := by
  unfold moveObjStep
  split_ifs <;> exact ⟨rfl, rfl, rfl, rfl, rfl⟩

lemma moveAlwaysMovables_ctx (s : GameState) (i j ni nj : Int) :
    (moveAlwaysMovables s i j ni nj).baba1 = s.baba1 ∧
    (moveAlwaysMovables s i j ni nj).baba2 = s.baba2 ∧
    (moveAlwaysMovables s i j ni nj).turn = s.turn ∧
    (moveAlwaysMovables s i j ni nj).moves = s.moves ∧
    (moveAlwaysMovables s i j ni nj).rockIsPushActive = s.rockIsPushActive := by
  unfold moveAlwaysMovables
  obtain ⟨a1, a2, a3, a4, a5⟩ := moveObjStep_ctx s i j ni nj .KEY
  obtain ⟨b1, b2, b3, b4, b5⟩ :=
    moveObjStep_ctx (moveObjStep s i j ni nj .KEY) i j ni nj .ROCK_TEXT
  obtain ⟨c1, c2, c3, c4, c5⟩ :=
    moveObjStep_ctx (moveObjStep (moveObjStep s i j ni nj .KEY) i j ni nj .ROCK_TEXT)
      i j ni nj .IS_TEXT
  obtain ⟨d1, d2, d3, d4, d5⟩ :=
    moveObjStep_ctx (moveObjStep (moveObjStep (moveObjStep s i j ni nj .KEY)
      i j ni nj .ROCK_TEXT) i j ni nj .IS_TEXT) i j ni nj .PUSH_TEXT
  exact ⟨d1.trans (c1.trans (b1.trans a1)), d2.trans (c2.trans (b2.trans a2)),
    d3.trans (c3.trans (b3.trans a3)), d4.trans (c4.trans (b4.trans a4)),
    d5.trans (c5.trans (b5.trans a5))⟩

lemma moveRock_ctx (s : GameState) (i j ni nj : Int) :
    (moveRock s i j ni nj).baba1 = s.baba1 ∧
    (moveRock s i j ni nj).baba2 = s.baba2 ∧
    (moveRock s i j ni nj).turn = s.turn ∧
    (moveRock s i j ni nj).moves = s.moves ∧
    (moveRock s i j ni nj).rockIsPushActive = s.rockIsPushActive :=
  ⟨rfl, rfl, rfl, rfl, rfl⟩

/-! ### Pointwise grid effects of the relocation steps -/

lemma beq_obj_self (o : GameObject) : (o == o) = true := by cases o <;> rfl

lemma beq_obj_of_ne {o m : GameObject} (h : o ≠ m) : (o == m) = false := by
  cases o <;> cases m <;> first | rfl | exact absurd rfl h

lemma contains_setCell (g : Grid) (i j : Int) (v : Cell) (m : GameObject) (a b : Int) :
    cellContainsGameObject (setCell g i j v a b) m
      = if a = i ∧ b = j then cellContainsGameObject v m
        else cellContainsGameObject (g a b) m := by
  unfold setCell
  split_ifs <;> rfl

lemma moveObjStep_grid (s : GameState) (i j ni nj : Int) (o : GameObject) :
    (moveObjStep s i j ni nj o).grid
      = if cellContainsGameObject (s.grid i j) o = true then
          setCell (setCell s.grid i j (removeFromCell (s.grid i j) o)) ni nj
            (addToCell (setCell s.grid i j (removeFromCell (s.grid i j) o) ni nj) o)
        else s.grid := by
  unfold moveObjStep
  split_ifs <;> rfl

lemma moveObjStep_isText (s : GameState) (i j ni nj : Int) (o : GameObject) :
    (moveObjStep s i j ni nj o).isText
      = if cellContainsGameObject (s.grid i j) o = true ∧ o = .IS_TEXT then ⟨ni, nj⟩
        else s.isText := by
  unfold moveObjStep
  split_ifs <;> first | rfl | tauto

lemma moveObjStep_key (s : GameState) (i j ni nj : Int) (o : GameObject) :
    (moveObjStep s i j ni nj o).key
      = if cellContainsGameObject (s.grid i j) o = true ∧ o = .KEY then ⟨ni, nj⟩
        else s.key := by
  unfold moveObjStep
  split_ifs <;> first | rfl | (exfalso; tauto) | (simp_all)

lemma contains_moveObjStep_ne (s : GameState) (i j ni nj : Int) (o m : GameObject)
    (hm : m ≠ o) (a b : Int) :
    cellContainsGameObject ((moveObjStep s i j ni nj o).grid a b) m
      = cellContainsGameObject (s.grid a b) m := by
  have hbe : (o == m) = false := beq_obj_of_ne (Ne.symm hm)
  rw [moveObjStep_grid]
  split_ifs with hf
  · rw [contains_setCell]
    split_ifs with g1
    · obtain ⟨rfl, rfl⟩ := g1
      rw [cellContainsGameObject_addToCell, hbe, Bool.or_false, contains_setCell]
      split_ifs with g2
      · obtain ⟨rfl, rfl⟩ := g2
        rw [cellContainsGameObject_removeFromCell, hbe, Bool.not_false, Bool.and_true]
      · rfl
    · rw [contains_setCell]
      split_ifs with g2
      · obtain ⟨rfl, rfl⟩ := g2
        rw [cellContainsGameObject_removeFromCell, hbe, Bool.not_false, Bool.and_true]
      · rfl
  · rfl

lemma moveObjStep_offcell (s : GameState) (i j ni nj : Int) (o : GameObject) (a b : Int)
    (h1 : ¬(a = i ∧ b = j)) (h2 : ¬(a = ni ∧ b = nj)) :
    (moveObjStep s i j ni nj o).grid a b = s.grid a b := by
  rw [moveObjStep_grid]
  split_ifs with hf
  · unfold setCell
    split_ifs <;> first | rfl | tauto
  · rfl

lemma contains_moveObjStep_clears (s : GameState) (i j ni nj : Int) (o : GameObject)
    (hne : ¬(ni = i ∧ nj = j)) :
    cellContainsGameObject ((moveObjStep s i j ni nj o).grid i j) o = false := by
  rw [moveObjStep_grid]
  split_ifs with hf
  · rw [contains_setCell]
    split_ifs with g1
    · exact absurd (And.intro g1.1.symm g1.2.symm) hne
    · rw [contains_setCell, if_pos ⟨rfl, rfl⟩, cellContainsGameObject_removeFromCell,
        beq_obj_self, Bool.not_true, Bool.and_false]
  · exact Bool.eq_false_iff.mpr hf

lemma contains_moveObjStep_target (s : GameState) (i j ni nj : Int) (o : GameObject)
    (hne : ¬(ni = i ∧ nj = j)) :
    cellContainsGameObject ((moveObjStep s i j ni nj o).grid ni nj) o
      = (cellContainsGameObject (s.grid ni nj) o || cellContainsGameObject (s.grid i j) o) := by
  rw [moveObjStep_grid]
  split_ifs with hf
  · rw [contains_setCell, if_pos ⟨rfl, rfl⟩, cellContainsGameObject_addToCell, beq_obj_self,
      Bool.or_true, hf, Bool.or_true]
  · rw [Bool.eq_false_iff.mpr hf, Bool.or_false]

lemma contains_moveRock_ne (s : GameState) (i j ni nj : Int) (m : GameObject)
    (hm : m ≠ .ROCK) (a b : Int) :
    cellContainsGameObject ((moveRock s i j ni nj).grid a b) m
      = cellContainsGameObject (s.grid a b) m := by
  have hbe : (GameObject.ROCK == m) = false := beq_obj_of_ne (Ne.symm hm)
  show cellContainsGameObject
    (setCell (setCell s.grid i j (removeFromCell (s.grid i j) .ROCK)) ni nj
      (addToCell (setCell s.grid i j (removeFromCell (s.grid i j) .ROCK) ni nj) .ROCK) a b) m
      = cellContainsGameObject (s.grid a b) m
  rw [contains_setCell]
  split_ifs with g1
  · obtain ⟨rfl, rfl⟩ := g1
    rw [cellContainsGameObject_addToCell, hbe, Bool.or_false, contains_setCell]
    split_ifs with g2
    · obtain ⟨rfl, rfl⟩ := g2
      rw [cellContainsGameObject_removeFromCell, hbe, Bool.not_false, Bool.and_true]
    · rfl
  · rw [contains_setCell]
    split_ifs with g2
    · obtain ⟨rfl, rfl⟩ := g2
      rw [cellContainsGameObject_removeFromCell, hbe, Bool.not_false, Bool.and_true]
    · rfl

lemma moveRock_offcell (s : GameState) (i j ni nj : Int) (a b : Int)
    (h1 : ¬(a = i ∧ b = j)) (h2 : ¬(a = ni ∧ b = nj)) :
    (moveRock s i j ni nj).grid a b = s.grid a b := by
  show setCell (setCell s.grid i j (removeFromCell (s.grid i j) .ROCK)) ni nj
    (addToCell (setCell s.grid i j (removeFromCell (s.grid i j) .ROCK) ni nj) .ROCK) a b
      = s.grid a b
  unfold setCell
  split_ifs <;> first | rfl | tauto

lemma contains_moveRock_clears (s : GameState) (i j ni nj : Int)
    (hne : ¬(ni = i ∧ nj = j)) :
    cellContainsGameObject ((moveRock s i j ni nj).grid i j) .ROCK = false := by
  show cellContainsGameObject
    (setCell (setCell s.grid i j (removeFromCell (s.grid i j) .ROCK)) ni nj
      (addToCell (setCell s.grid i j (removeFromCell (s.grid i j) .ROCK) ni nj) .ROCK) i j)
      .ROCK = false
  rw [contains_setCell]
  split_ifs with g1
  · exact absurd (And.intro g1.1.symm g1.2.symm) hne
  · rw [contains_setCell, if_pos ⟨rfl, rfl⟩, cellContainsGameObject_removeFromCell,
      beq_obj_self, Bool.not_true, Bool.and_false]

lemma contains_moveRock_target (s : GameState) (i j ni nj : Int) :
    cellContainsGameObject ((moveRock s i j ni nj).grid ni nj) .ROCK = true := by
  show cellContainsGameObject
    (setCell (setCell s.grid i j (removeFromCell (s.grid i j) .ROCK)) ni nj
      (addToCell (setCell s.grid i j (removeFromCell (s.grid i j) .ROCK) ni nj) .ROCK) ni nj)
      .ROCK = true
  rw [contains_setCell, if_pos ⟨rfl, rfl⟩, cellContainsGameObject_addToCell, beq_obj_self,
    Bool.or_true]

/-! ### The push-chain resolver: structural lemmas -/

lemma contains_moveAlwaysMovables_ne (s : GameState) (i j ni nj : Int) (m : GameObject)
    (h1 : m ≠ .KEY) (h2 : m ≠ .ROCK_TEXT) (h3 : m ≠ .IS_TEXT) (h4 : m ≠ .PUSH_TEXT)
    (a b : Int) :
    cellContainsGameObject ((moveAlwaysMovables s i j ni nj).grid a b) m
      = cellContainsGameObject (s.grid a b) m := by
  unfold moveAlwaysMovables
  rw [contains_moveObjStep_ne _ _ _ _ _ _ _ h4, contains_moveObjStep_ne _ _ _ _ _ _ _ h3,
    contains_moveObjStep_ne _ _ _ _ _ _ _ h2, contains_moveObjStep_ne _ _ _ _ _ _ _ h1]

lemma moveAlwaysMovables_offcell (s : GameState) (i j ni nj : Int) (a b : Int)
    (h1 : ¬(a = i ∧ b = j)) (h2 : ¬(a = ni ∧ b = nj)) :
    (moveAlwaysMovables s i j ni nj).grid a b = s.grid a b := by
  unfold moveAlwaysMovables
  rw [moveObjStep_offcell _ _ _ _ _ _ _ _ h1 h2, moveObjStep_offcell _ _ _ _ _ _ _ _ h1 h2,
    moveObjStep_offcell _ _ _ _ _ _ _ _ h1 h2, moveObjStep_offcell _ _ _ _ _ _ _ _ h1 h2]

lemma checkCell_succ_eq (fuel : Nat) (s : GameState) (i j di dj : Int) (prev : Cell) :
    checkCellAndMoveObjects (fuel + 1) s i j di dj prev =
      (if cellContainsGameObject (s.grid i j) .IMMOVABLE then (false, s)
       else if cellContainsGameObject (s.grid i j) .DOOR then
         if cellContainsGameObject prev .KEY &&
             !cellContainsMovableObject (removeFromCell prev .KEY) s.rockIsPushActive then
           (true, s)
         else (false, s)
       else if !cellContainsMovableObject (s.grid i j) s.rockIsPushActive then (true, s)
       else if willGoOutOfBounds i j di dj then (false, s)
       else
         match checkCellAndMoveObjects fuel s (i + di) (j + dj) di dj (s.grid i j) with
         | (false, s1) => (false, s1)
         | (true, s1) =>
           let s2 := moveAlwaysMovables s1 i j (i + di) (j + dj)
           (true,
             if s2.rockIsPushActive && cellContainsGameObject (s.grid i j) .ROCK then
               moveRock s2 i j (i + di) (j + dj)
             else s2)) := rfl

lemma onRay_self (i j di dj : Int) : OnRay i j di dj i j :=
  ⟨0, by simp⟩

lemma onRay_next (i j di dj : Int) : OnRay i j di dj (i + di) (j + dj) :=
  ⟨1, by simp⟩

lemma onRay_of_next {i j di dj a b : Int} (h : OnRay (i + di) (j + dj) di dj a b) :
    OnRay i j di dj a b := by
  obtain ⟨t, ht1, ht2⟩ := h
  refine ⟨t + 1, ?_, ?_⟩
  · rw [ht1]; push_cast; ring
  · rw [ht2]; push_cast; ring

lemma checkCell_fail (fuel : Nat) (s : GameState) (i j di dj : Int) (prev : Cell) :
    (checkCellAndMoveObjects fuel s i j di dj prev).1 = false →
    (checkCellAndMoveObjects fuel s i j di dj prev).2 = s := by
  induction fuel generalizing s i j prev with
  | zero => intro _; rfl
  | succ fuel ih =>
    intro h
    rw [checkCell_succ_eq] at h ⊢
    rcases hr : checkCellAndMoveObjects fuel s (i + di) (j + dj) di dj (s.grid i j)
      with ⟨ok1, s1⟩
    cases ok1
    · have h6 := ih s (i + di) (j + dj) (s.grid i j)
      rw [hr] at h6
      have hs1 : s1 = s := h6 rfl
      subst hs1
      split_ifs at h ⊢ <;> rfl
    · simp only [] at h ⊢
      split_ifs at h ⊢ <;> first | rfl | simp_all

lemma checkCell_ctx (fuel : Nat) (s : GameState) (i j di dj : Int) (prev : Cell) :
    (checkCellAndMoveObjects fuel s i j di dj prev).2.baba1 = s.baba1 ∧
    (checkCellAndMoveObjects fuel s i j di dj prev).2.baba2 = s.baba2 ∧
    (checkCellAndMoveObjects fuel s i j di dj prev).2.turn = s.turn ∧
    (checkCellAndMoveObjects fuel s i j di dj prev).2.moves = s.moves ∧
    (checkCellAndMoveObjects fuel s i j di dj prev).2.rockIsPushActive = s.rockIsPushActive := by
  induction fuel generalizing s i j prev with
  | zero => exact ⟨rfl, rfl, rfl, rfl, rfl⟩
  | succ fuel ih =>
    rw [checkCell_succ_eq]
    split_ifs with h1 h2 h3 h4 h5
    · exact ⟨rfl, rfl, rfl, rfl, rfl⟩
    · exact ⟨rfl, rfl, rfl, rfl, rfl⟩
    · exact ⟨rfl, rfl, rfl, rfl, rfl⟩
    · exact ⟨rfl, rfl, rfl, rfl, rfl⟩
    · exact ⟨rfl, rfl, rfl, rfl, rfl⟩
    · rcases hr : checkCellAndMoveObjects fuel s (i + di) (j + dj) di dj (s.grid i j)
        with ⟨ok1, s1⟩
      have h6 := ih s (i + di) (j + dj) (s.grid i j)
      rw [hr] at h6
      obtain ⟨e1, e2, e3, e4, e5⟩ := h6
      cases ok1
      · exact ⟨e1, e2, e3, e4, e5⟩
      · simp only []
        obtain ⟨m1, m2, m3, m4, m5⟩ := moveAlwaysMovables_ctx s1 i j (i + di) (j + dj)
        split_ifs with hrk
        · obtain ⟨r1, r2, r3, r4, r5⟩ :=
            moveRock_ctx (moveAlwaysMovables s1 i j (i + di) (j + dj)) i j (i + di) (j + dj)
          exact ⟨r1.trans (m1.trans e1), r2.trans (m2.trans e2), r3.trans (m3.trans e3),
            r4.trans (m4.trans e4), r5.trans (m5.trans e5)⟩
        · exact ⟨m1.trans e1, m2.trans e2, m3.trans e3, m4.trans e4, m5.trans e5⟩

lemma checkCell_offray (fuel : Nat) (s : GameState) (i j di dj : Int) (prev : Cell)
    (a b : Int) (h : ¬OnRay i j di dj a b) :
    (checkCellAndMoveObjects fuel s i j di dj prev).2.grid a b = s.grid a b := by
  induction fuel generalizing s i j prev with
  | zero => rfl
  | succ fuel ih =>
    rw [checkCell_succ_eq]
    have hij : ¬(a = i ∧ b = j) := by
      rintro ⟨rfl, rfl⟩; exact h (onRay_self _ _ _ _)
    have hnn : ¬(a = i + di ∧ b = j + dj) := by
      rintro ⟨rfl, rfl⟩; exact h (onRay_next _ _ _ _)
    have hray : ¬OnRay (i + di) (j + dj) di dj a b := fun hr => h (onRay_of_next hr)
    split_ifs with h1 h2 h3 h4 h5
    · rfl
    · rfl
    · rfl
    · rfl
    · rfl
    · rcases hr : checkCellAndMoveObjects fuel s (i + di) (j + dj) di dj (s.grid i j)
        with ⟨ok1, s1⟩
      have h6 := ih s (i + di) (j + dj) (s.grid i j) hray
      rw [hr] at h6
      cases ok1
      · exact h6
      · simp only []
        split_ifs with hrk
        · rw [moveRock_offcell _ _ _ _ _ _ _ hij hnn,
            moveAlwaysMovables_offcell _ _ _ _ _ _ _ hij hnn, h6]
        · rw [moveAlwaysMovables_offcell _ _ _ _ _ _ _ hij hnn, h6]

lemma checkCell_fixed (fuel : Nat) (s : GameState) (i j di dj : Int) (prev : Cell)
    (m : GameObject) (hm : ¬IsCarriedObj m) (a b : Int) :
    cellContainsGameObject ((checkCellAndMoveObjects fuel s i j di dj prev).2.grid a b) m
      = cellContainsGameObject (s.grid a b) m := by
  have hk : m ≠ .KEY := fun h => hm (Or.inl h)
  have hr : m ≠ .ROCK_TEXT := fun h => hm (Or.inr (Or.inl h))
  have hi : m ≠ .IS_TEXT := fun h => hm (Or.inr (Or.inr (Or.inl h)))
  have hp : m ≠ .PUSH_TEXT := fun h => hm (Or.inr (Or.inr (Or.inr (Or.inl h))))
  have hrk : m ≠ .ROCK := fun h => hm (Or.inr (Or.inr (Or.inr (Or.inr h))))
  induction fuel generalizing s i j prev with
  | zero => rfl
  | succ fuel ih =>
    rw [checkCell_succ_eq]
    split_ifs with h1 h2 h3 h4 h5
    · rfl
    · rfl
    · rfl
    · rfl
    · rfl
    · rcases hrec : checkCellAndMoveObjects fuel s (i + di) (j + dj) di dj (s.grid i j)
        with ⟨ok1, s1⟩
      have h6 := ih s (i + di) (j + dj) (s.grid i j)
      rw [hrec] at h6
      cases ok1
      · exact h6
      · simp only []
        split_ifs with hg
        · rw [contains_moveRock_ne _ _ _ _ _ _ hrk,
            contains_moveAlwaysMovables_ne _ _ _ _ _ _ hk hr hi hp, h6]
        · rw [contains_moveAlwaysMovables_ne _ _ _ _ _ _ hk hr hi hp, h6]

lemma checkCell_rock_inactive (fuel : Nat) (s : GameState) (i j di dj : Int) (prev : Cell)
    (hact : s.rockIsPushActive = false) (a b : Int) :
    cellContainsGameObject ((checkCellAndMoveObjects fuel s i j di dj prev).2.grid a b) .ROCK
      = cellContainsGameObject (s.grid a b) .ROCK := by
  induction fuel generalizing s i j prev with
  | zero => rfl
  | succ fuel ih =>
    rw [checkCell_succ_eq]
    split_ifs with h1 h2 h3 h4 h5
    · rfl
    · rfl
    · rfl
    · rfl
    · rfl
    · rcases hrec : checkCellAndMoveObjects fuel s (i + di) (j + dj) di dj (s.grid i j)
        with ⟨ok1, s1⟩
      have h6 := ih s (i + di) (j + dj) (s.grid i j) hact
      rw [hrec] at h6
      have hctx := checkCell_ctx fuel s (i + di) (j + dj) di dj (s.grid i j)
      rw [hrec] at hctx
      obtain ⟨-, -, -, -, e5⟩ := hctx
      cases ok1
      · exact h6
      · simp only []
        obtain ⟨-, -, -, -, m5⟩ := moveAlwaysMovables_ctx s1 i j (i + di) (j + dj)
        have hflag : (moveAlwaysMovables s1 i j (i + di) (j + dj)).rockIsPushActive = false :=
          m5.trans (e5.trans hact)
        rw [hflag]
        simp only [Bool.false_and, Bool.false_eq_true, if_false]
        rw [contains_moveAlwaysMovables_ne _ _ _ _ _ _ (by simp) (by simp) (by simp) (by simp),
          h6]

/-! ### Vacating a pushed-through cell, and is-text cache synchronisation -/

lemma not_onRay_back {i j di dj : Int} (hdz : ¬(di = 0 ∧ dj = 0)) :
    ¬OnRay (i + di) (j + dj) di dj i j := by
  rintro ⟨t, ht1, ht2⟩
  have h1 : (1 + (t : Int)) * di = 0 := by push_cast at ht1 ⊢; nlinarith [ht1]
  have h2 : (1 + (t : Int)) * dj = 0 := by push_cast at ht2 ⊢; nlinarith [ht2]
  have hpos : (0 : Int) < 1 + (t : Int) := by positivity
  exact hdz ⟨by nlinarith [h1], by nlinarith [h2]⟩

lemma contains_moveAlwaysMovables_clears (s : GameState) (i j ni nj : Int)
    (hne : ¬(ni = i ∧ nj = j)) (m : GameObject)
    (hm : m = .KEY ∨ m = .ROCK_TEXT ∨ m = .IS_TEXT ∨ m = .PUSH_TEXT) :
    cellContainsGameObject ((moveAlwaysMovables s i j ni nj).grid i j) m = false := by
  unfold moveAlwaysMovables
  rcases hm with rfl | rfl | rfl | rfl
  · rw [contains_moveObjStep_ne _ _ _ _ _ _ _ (by simp),
      contains_moveObjStep_ne _ _ _ _ _ _ _ (by simp),
      contains_moveObjStep_ne _ _ _ _ _ _ _ (by simp),
      contains_moveObjStep_clears _ _ _ _ _ _ hne]
  · rw [contains_moveObjStep_ne _ _ _ _ _ _ _ (by simp),
      contains_moveObjStep_ne _ _ _ _ _ _ _ (by simp),
      contains_moveObjStep_clears _ _ _ _ _ _ hne]
  · rw [contains_moveObjStep_ne _ _ _ _ _ _ _ (by simp),
      contains_moveObjStep_clears _ _ _ _ _ _ hne]
  · rw [contains_moveObjStep_clears _ _ _ _ _ _ hne]

lemma movable_bits {c : Cell} {act : Bool} (h : cellContainsMovableObject c act = false) :
    cellContainsGameObject c .KEY = false ∧ cellContainsGameObject c .ROCK_TEXT = false ∧
    cellContainsGameObject c .IS_TEXT = false ∧ cellContainsGameObject c .PUSH_TEXT = false ∧
    (act = true → cellContainsGameObject c .ROCK = false) := by
  rw [cellContainsMovableObject_eq] at h
  simp only [Bool.or_eq_false_iff, Bool.and_eq_false_iff] at h
  refine ⟨h.1.1.1.1, h.1.1.1.2, h.1.1.2, h.1.2, fun ha => ?_⟩
  rcases h.2 with h2 | h2
  · rw [ha] at h2; exact absurd h2 (by simp)
  · exact h2

/-- On success at a non-door cell, the resolver leaves the cell free of all
always-movable objects and (while the rule is active) free of rocks. -/
lemma checkCell_vacate (fuel : Nat) (s : GameState) (i j di dj : Int) (prev : Cell)
    (hdz : ¬(di = 0 ∧ dj = 0))
    (hok : (checkCellAndMoveObjects fuel s i j di dj prev).1 = true)
    (hdoor : cellContainsGameObject (s.grid i j) .DOOR = false) :
    (∀ m, (m = .KEY ∨ m = .ROCK_TEXT ∨ m = .IS_TEXT ∨ m = .PUSH_TEXT) →
      cellContainsGameObject ((checkCellAndMoveObjects fuel s i j di dj prev).2.grid i j) m
        = false) ∧
    (s.rockIsPushActive = true →
      cellContainsGameObject ((checkCellAndMoveObjects fuel s i j di dj prev).2.grid i j) .ROCK
        = false) := by
  have hne : ¬(i + di = i ∧ j + dj = j) := by
    intro hc
    exact hdz ⟨by omega, by omega⟩
  cases fuel with
  | zero => simp [checkCellAndMoveObjects] at hok
  | succ fuel =>
    rw [checkCell_succ_eq] at hok ⊢
    rcases hr : checkCellAndMoveObjects fuel s (i + di) (j + dj) di dj (s.grid i j)
      with ⟨ok1, s1⟩
    split_ifs at hok ⊢ with h1 h2 h3 h4 h5
    · exact absurd h2 (by simp [hdoor])
    · have h4f : cellContainsMovableObject (s.grid i j) s.rockIsPushActive = false := by
        simpa using h4
      obtain ⟨k1, k2, k3, k4, k5⟩ := movable_bits h4f
      exact ⟨fun m hm => by rcases hm with rfl | rfl | rfl | rfl <;> assumption, k5⟩
    · rw [hr] at hok
      cases ok1
      · simp at hok
      · simp only []
        have hflag : s1.rockIsPushActive = s.rockIsPushActive := by
          have := checkCell_ctx fuel s (i + di) (j + dj) di dj (s.grid i j)
          rw [hr] at this
          exact this.2.2.2.2
        have hs1ij : s1.grid i j = s.grid i j := by
          have := checkCell_offray fuel s (i + di) (j + dj) di dj (s.grid i j) i j
            (not_onRay_back hdz)
          rw [hr] at this
          exact this
        constructor
        · intro m hm
          split_ifs with hg
          · rw [contains_moveRock_ne _ _ _ _ _ _
              (by rcases hm with rfl | rfl | rfl | rfl <;> simp)]
            exact contains_moveAlwaysMovables_clears s1 i j (i + di) (j + dj) hne m hm
          · exact contains_moveAlwaysMovables_clears s1 i j (i + di) (j + dj) hne m hm
        · intro hact
          split_ifs with hg
          · exact contains_moveRock_clears _ _ _ _ _ hne
          · have hg2 : cellContainsGameObject (s.grid i j) .ROCK = false := by
              obtain ⟨-, -, -, -, m5⟩ := moveAlwaysMovables_ctx s1 i j (i + di) (j + dj)
              rw [Bool.and_eq_true_iff] at hg
              push_neg at hg
              by_cases hro : cellContainsGameObject (s.grid i j) .ROCK = true
              · exact absurd hro (by
                  intro hc
                  exact absurd (hg (by rw [m5, hflag, hact])) (by simp [hc]))
              · exact Bool.not_eq_true _ ▸ hro
            rw [contains_moveAlwaysMovables_ne _ _ _ _ _ _ (by simp) (by simp) (by simp)
              (by simp), hs1ij]
            exact hg2

/-- The cached is-text coordinate points at the unique is-text cell. -/
def IsTextSync (s : GameState) : Prop :=
  ∀ a b : Int,
    cellContainsGameObject (s.grid a b) .IS_TEXT = true ↔ a = s.isText.i ∧ b = s.isText.j

lemma isTextSync_moveObjStep_other (s : GameState) (i j ni nj : Int) (o : GameObject)
    (ho : o ≠ .IS_TEXT) (hs : IsTextSync s) :
    IsTextSync (moveObjStep s i j ni nj o) := by
  intro a b
  rw [contains_moveObjStep_ne _ _ _ _ _ _ _ (Ne.symm ho), moveObjStep_isText,
    if_neg (by tauto)]
  exact hs a b

lemma isTextSync_moveObjStep_is (s : GameState) (i j ni nj : Int)
    (hne : ¬(ni = i ∧ nj = j)) (hs : IsTextSync s) :
    IsTextSync (moveObjStep s i j ni nj .IS_TEXT) := by
  intro a b
  by_cases hf : cellContainsGameObject (s.grid i j) .IS_TEXT = true
  · have hloc : i = s.isText.i ∧ j = s.isText.j := (hs i j).mp hf
    rw [moveObjStep_isText, if_pos ⟨hf, rfl⟩]
    by_cases hab : a = ni ∧ b = nj
    · obtain ⟨rfl, rfl⟩ := hab
      rw [contains_moveObjStep_target _ _ _ _ _ _ hne, hf, Bool.or_true]
      simp
    · constructor
      · intro hcon
        by_cases hab2 : a = i ∧ b = j
        · obtain ⟨rfl, rfl⟩ := hab2
          rw [contains_moveObjStep_clears _ _ _ _ _ _ hne] at hcon
          exact absurd hcon (by simp)
        · rw [moveObjStep_grid, if_pos hf] at hcon
          rw [contains_setCell, if_neg hab, contains_setCell, if_neg hab2] at hcon
          have := (hs a b).mp hcon
          exact absurd ⟨this.1.trans hloc.1.symm, this.2.trans hloc.2.symm⟩ hab2
      · intro hcon
        exact absurd hcon (by simpa using hab)
  · have hf2 : cellContainsGameObject (s.grid i j) .IS_TEXT = false :=
      Bool.not_eq_true _ ▸ hf
    unfold moveObjStep
    rw [hf2]
    simp only [Bool.false_eq_true, if_false]
    exact hs a b

lemma isTextSync_moveAlwaysMovables (s : GameState) (i j ni nj : Int)
    (hne : ¬(ni = i ∧ nj = j)) (hs : IsTextSync s) :
    IsTextSync (moveAlwaysMovables s i j ni nj) := by
  unfold moveAlwaysMovables
  apply isTextSync_moveObjStep_other _ _ _ _ _ _ (by simp)
  apply isTextSync_moveObjStep_is _ _ _ _ _ hne
  apply isTextSync_moveObjStep_other _ _ _ _ _ _ (by simp)
  exact isTextSync_moveObjStep_other _ _ _ _ _ _ (by simp) hs

lemma isTextSync_moveRock (s : GameState) (i j ni nj : Int) (hs : IsTextSync s) :
    IsTextSync (moveRock s i j ni nj) := by
  intro a b
  rw [contains_moveRock_ne _ _ _ _ _ _ (by simp)]
  exact hs a b

lemma checkCell_isTextSync (fuel : Nat) (s : GameState) (i j di dj : Int) (prev : Cell)
    (hdz : ¬(di = 0 ∧ dj = 0)) :
    IsTextSync s → IsTextSync (checkCellAndMoveObjects fuel s i j di dj prev).2 := by
  induction fuel generalizing s i j prev with
  | zero => exact fun hs => hs
  | succ fuel ih =>
    intro hs
    have hne : ¬(i + di = i ∧ j + dj = j) := by
      intro hc
      exact hdz ⟨by omega, by omega⟩
    rw [checkCell_succ_eq]
    rcases hr : checkCellAndMoveObjects fuel s (i + di) (j + dj) di dj (s.grid i j)
      with ⟨ok1, s1⟩
    have hs1 : IsTextSync s1 := by
      have := ih s (i + di) (j + dj) (s.grid i j) hs
      rw [hr] at this
      exact this
    split_ifs with h1 h2 h3 h4 h5
    · exact hs
    · exact hs
    · exact hs
    · exact hs
    · exact hs
    · cases ok1
      · exact hs1
      · simp only []
        split_ifs with hg
        · exact isTextSync_moveRock _ _ _ _ _
            (isTextSync_moveAlwaysMovables _ _ _ _ _ hne hs1)
        · exact isTextSync_moveAlwaysMovables _ _ _ _ _ hne hs1

/-! ### Structure of `MoveBaba` and `ApplyMove` -/

lemma IsUnitDelta.dz {di dj : Int} (h : IsUnitDelta di dj) : ¬(di = 0 ∧ dj = 0) := by
  rcases h with ⟨rfl, rfl⟩ | ⟨rfl, rfl⟩ | ⟨rfl, rfl⟩ | ⟨rfl, rfl⟩ <;> simp

/-- `MoveBaba` either changes nothing at all, or runs the push-chain
resolver on the destination cell with one of the four unit deltas. -/
lemma moveBabaGo_eq (s : GameState) (b : Coordinate) (di dj : Int) :
    moveBabaGo s b di dj
      = (if (checkCellAndMoveObjects CHAIN_FUEL s (b.i + di) (b.j + dj) di dj 0).1 = true
         then ((checkCellAndMoveObjects CHAIN_FUEL s (b.i + di) (b.j + dj) di dj 0).2,
           ⟨b.i + di, b.j + dj⟩)
         else ((checkCellAndMoveObjects CHAIN_FUEL s (b.i + di) (b.j + dj) di dj 0).2, b)) := by
  unfold moveBabaGo
  rcases hr : checkCellAndMoveObjects CHAIN_FUEL s (b.i + di) (b.j + dj) di dj 0
    with ⟨ok, s1⟩
  cases ok <;> simp

lemma moveBaba_def_UP (s : GameState) (b : Coordinate) :
    moveBaba s b .UP
      = if b.i = BABA_DEAD then (s, b)
        else if b.i = 0 then (s, b) else moveBabaGo s b (-1) 0 := rfl

lemma moveBaba_def_RIGHT (s : GameState) (b : Coordinate) :
    moveBaba s b .RIGHT
      = if b.i = BABA_DEAD then (s, b)
        else if b.j = GRID_WIDTH - 1 then (s, b) else moveBabaGo s b 0 1 := rfl

lemma moveBaba_def_DOWN (s : GameState) (b : Coordinate) :
    moveBaba s b .DOWN
      = if b.i = BABA_DEAD then (s, b)
        else if b.i = GRID_HEIGHT - 1 then (s, b) else moveBabaGo s b 1 0 := rfl

lemma moveBaba_def_LEFT (s : GameState) (b : Coordinate) :
    moveBaba s b .LEFT
      = if b.i = BABA_DEAD then (s, b)
        else if b.j = 0 then (s, b) else moveBabaGo s b 0 (-1) := rfl

/-- `MoveBaba` either changes nothing at all, or runs the push-chain
resolver on the destination cell with one of the four unit deltas. -/
lemma moveBaba_cases (s : GameState) (b : Coordinate) (d : Direction) :
    moveBaba s b d = (s, b) ∨
    ∃ di dj, IsUnitDelta di dj ∧
      moveBaba s b d
        = (if (checkCellAndMoveObjects CHAIN_FUEL s (b.i + di) (b.j + dj) di dj 0).1 = true
           then ((checkCellAndMoveObjects CHAIN_FUEL s (b.i + di) (b.j + dj) di dj 0).2,
             ⟨b.i + di, b.j + dj⟩)
           else ((checkCellAndMoveObjects CHAIN_FUEL s (b.i + di) (b.j + dj) di dj 0).2, b)) := by
  cases d
  case UP =>
    rw [moveBaba_def_UP]
    split_ifs with hdead h0
    · exact Or.inl rfl
    · exact Or.inl rfl
    · exact Or.inr ⟨-1, 0, Or.inl ⟨rfl, rfl⟩, moveBabaGo_eq s b (-1) 0⟩
  case RIGHT =>
    rw [moveBaba_def_RIGHT]
    split_ifs with hdead h0
    · exact Or.inl rfl
    · exact Or.inl rfl
    · exact Or.inr ⟨0, 1, Or.inr (Or.inr (Or.inl ⟨rfl, rfl⟩)), moveBabaGo_eq s b 0 1⟩
  case DOWN =>
    rw [moveBaba_def_DOWN]
    split_ifs with hdead h0
    · exact Or.inl rfl
    · exact Or.inl rfl
    · exact Or.inr ⟨1, 0, Or.inr (Or.inl ⟨rfl, rfl⟩), moveBabaGo_eq s b 1 0⟩
  case LEFT =>
    rw [moveBaba_def_LEFT]
    split_ifs with hdead h0
    · exact Or.inl rfl
    · exact Or.inl rfl
    · exact Or.inr ⟨0, -1, Or.inr (Or.inr (Or.inr ⟨rfl, rfl⟩)), moveBabaGo_eq s b 0 (-1)⟩

lemma moveBaba_ctx (s : GameState) (b : Coordinate) (d : Direction) :
    (moveBaba s b d).1.baba1 = s.baba1 ∧ (moveBaba s b d).1.baba2 = s.baba2 ∧
    (moveBaba s b d).1.turn = s.turn ∧ (moveBaba s b d).1.moves = s.moves ∧
    (moveBaba s b d).1.rockIsPushActive = s.rockIsPushActive := by
  rcases moveBaba_cases s b d with h | ⟨di, dj, -, h⟩
  · rw [h]
    exact ⟨rfl, rfl, rfl, rfl, rfl⟩
  · rw [h]
    split_ifs <;> exact checkCell_ctx CHAIN_FUEL s (b.i + di) (b.j + dj) di dj 0

lemma moveBaba_fixed (s : GameState) (b : Coordinate) (d : Direction) (m : GameObject)
    (hm : ¬IsCarriedObj m) (a b' : Int) :
    cellContainsGameObject ((moveBaba s b d).1.grid a b') m
      = cellContainsGameObject (s.grid a b') m := by
  rcases moveBaba_cases s b d with h | ⟨di, dj, -, h⟩
  · rw [h]
  · rw [h]
    split_ifs <;> exact checkCell_fixed CHAIN_FUEL s (b.i + di) (b.j + dj) di dj 0 m hm a b'

lemma moveBaba_rock_inactive (s : GameState) (b : Coordinate) (d : Direction)
    (hact : s.rockIsPushActive = false) (a b' : Int) :
    cellContainsGameObject ((moveBaba s b d).1.grid a b') .ROCK
      = cellContainsGameObject (s.grid a b') .ROCK := by
  rcases moveBaba_cases s b d with h | ⟨di, dj, -, h⟩
  · rw [h]
  · rw [h]
    split_ifs <;>
      exact checkCell_rock_inactive CHAIN_FUEL s (b.i + di) (b.j + dj) di dj 0 hact a b'

lemma moveBaba_isTextSync (s : GameState) (b : Coordinate) (d : Direction)
    (hs : IsTextSync s) : IsTextSync (moveBaba s b d).1 := by
  rcases moveBaba_cases s b d with h | ⟨di, dj, hu, h⟩
  · rw [h]; exact hs
  · rw [h]
    split_ifs <;>
      exact checkCell_isTextSync CHAIN_FUEL s (b.i + di) (b.j + dj) di dj 0 hu.dz hs

/-- The state after the first Baba has moved. -/
def applyMoveMid1 (s : GameState) (d : Direction) : GameState :=
  { (moveBaba s s.baba1 d).1 with baba1 := (moveBaba s s.baba1 d).2 }

/-- The state after both Babas have moved, before recalculation. -/
def applyMoveMid2 (s : GameState) (d : Direction) : GameState :=
  { (moveBaba (applyMoveMid1 s d) (applyMoveMid1 s d).baba2 d).1 with
    baba2 := (moveBaba (applyMoveMid1 s d) (applyMoveMid1 s d).baba2 d).2 }

lemma applyMove_eq (s : GameState) (d : Direction) :
    applyMove s d =
      { recalculateState (applyMoveMid2 s d) with
        moves := (recalculateState (applyMoveMid2 s d)).moves ++ [d],
        turn := (recalculateState (applyMoveMid2 s d)).turn + 1 } := rfl

lemma killBaba1_isText (s : GameState) : (killBaba1 s).isText = s.isText := by
  unfold killBaba1
  split_ifs <;> rfl

lemma killBaba2_isText (s : GameState) : (killBaba2 s).isText = s.isText := by
  unfold killBaba2
  split_ifs <;> rfl

lemma killBaba1_key (s : GameState) : (killBaba1 s).key = s.key := by
  unfold killBaba1
  split_ifs <;> rfl

lemma killBaba2_key (s : GameState) : (killBaba2 s).key = s.key := by
  unfold killBaba2
  split_ifs <;> rfl

lemma recalculateState_grid (s : GameState) : (recalculateState s).grid = s.grid := by
  show (if babasOnSameSpace s then s else killBaba2 (killBaba1 s)).grid = s.grid
  split_ifs
  · rfl
  · rw [killBaba2_grid, killBaba1_grid]

lemma recalculateState_isText (s : GameState) : (recalculateState s).isText = s.isText := by
  show (if babasOnSameSpace s then s else killBaba2 (killBaba1 s)).isText = s.isText
  split_ifs
  · rfl
  · rw [killBaba2_isText, killBaba1_isText]

lemma recalculateState_key (s : GameState) : (recalculateState s).key = s.key := by
  show (if babasOnSameSpace s then s else killBaba2 (killBaba1 s)).key = s.key
  split_ifs
  · rfl
  · rw [killBaba2_key, killBaba1_key]

lemma checkRockIsPushIntact_congr (s t : GameState) (hg : s.grid = t.grid)
    (hi : s.isText = t.isText) : checkRockIsPushIntact s = checkRockIsPushIntact t := by
  unfold checkRockIsPushIntact
  rw [hg, hi]

lemma recalculateState_flag (s : GameState) :
    (recalculateState s).rockIsPushActive = checkRockIsPushIntact s := by
  show checkRockIsPushIntact (if babasOnSameSpace s then s else killBaba2 (killBaba1 s))
    = checkRockIsPushIntact s
  split_ifs
  · rfl
  · exact checkRockIsPushIntact_congr _ _ (by rw [killBaba2_grid, killBaba1_grid])
      (by rw [killBaba2_isText, killBaba1_isText])

lemma applyMove_grid (s : GameState) (d : Direction) :
    (applyMove s d).grid = (applyMoveMid2 s d).grid := by
  rw [applyMove_eq]
  exact recalculateState_grid _

lemma applyMove_isText (s : GameState) (d : Direction) :
    (applyMove s d).isText = (applyMoveMid2 s d).isText := by
  rw [applyMove_eq]
  exact recalculateState_isText _

lemma applyMove_key (s : GameState) (d : Direction) :
    (applyMove s d).key = (applyMoveMid2 s d).key := by
  rw [applyMove_eq]
  exact recalculateState_key _

lemma applyMove_flag (s : GameState) (d : Direction) :
    (applyMove s d).rockIsPushActive = checkRockIsPushIntact (applyMoveMid2 s d) := by
  rw [applyMove_eq]
  exact recalculateState_flag _

lemma applyMoveMid2_flag (s : GameState) (d : Direction) :
    (applyMoveMid2 s d).rockIsPushActive = s.rockIsPushActive := by
  unfold applyMoveMid2 applyMoveMid1
  have h1 := (moveBaba_ctx s s.baba1 d).2.2.2.2
  have h2 := (moveBaba_ctx { (moveBaba s s.baba1 d).1 with baba1 := (moveBaba s s.baba1 d).2 }
    { (moveBaba s s.baba1 d).1 with baba1 := (moveBaba s s.baba1 d).2 }.baba2 d).2.2.2.2
  exact h2.trans h1

lemma applyMoveMid2_fixed (s : GameState) (d : Direction) (m : GameObject)
    (hm : ¬IsCarriedObj m) (a b : Int) :
    cellContainsGameObject ((applyMoveMid2 s d).grid a b) m
      = cellContainsGameObject (s.grid a b) m := by
  unfold applyMoveMid2 applyMoveMid1
  rw [moveBaba_fixed _ _ _ m hm, moveBaba_fixed _ _ _ m hm]

lemma applyMove_fixed (s : GameState) (d : Direction) (m : GameObject)
    (hm : ¬IsCarriedObj m) (a b : Int) :
    cellContainsGameObject ((applyMove s d).grid a b) m
      = cellContainsGameObject (s.grid a b) m := by
  rw [applyMove_grid]
  exact applyMoveMid2_fixed s d m hm a b

lemma applyMove_rock_inactive (s : GameState) (d : Direction)
    (hact : s.rockIsPushActive = false) (a b : Int) :
    cellContainsGameObject ((applyMove s d).grid a b) .ROCK
      = cellContainsGameObject (s.grid a b) .ROCK := by
  rw [applyMove_grid]
  unfold applyMoveMid2 applyMoveMid1
  rw [moveBaba_rock_inactive _ _ _ (by
    have := (moveBaba_ctx s s.baba1 d).2.2.2.2
    exact this.trans hact), moveBaba_rock_inactive _ _ _ hact]

lemma isTextSync_of_parts {s t : GameState} (hg : t.grid = s.grid) (hi : t.isText = s.isText)
    (hs : IsTextSync s) : IsTextSync t := by
  intro a b
  rw [hg, hi]
  exact hs a b

lemma applyMove_isTextSync (s : GameState) (d : Direction) (hs : IsTextSync s) :
    IsTextSync (applyMove s d) := by
  have h1 : IsTextSync (applyMoveMid1 s d) :=
    isTextSync_of_parts rfl rfl (moveBaba_isTextSync s s.baba1 d hs)
  have h2 : IsTextSync (applyMoveMid2 s d) :=
    isTextSync_of_parts rfl rfl
      (moveBaba_isTextSync (applyMoveMid1 s d) (applyMoveMid1 s d).baba2 d h1)
  exact isTextSync_of_parts (applyMove_grid s d) (applyMove_isText s d) h2

/-! ### C6: the cached rule flag tracks the text-block adjacency -/

/-- The "ROCK IS PUSH" adjacency predicate on a raw grid: the rock-text and
push-text tokens orthogonally flank the is-text token at `c`, vertically or
horizontally. -/
def ruleTextsAligned (g : Grid) (c : Coordinate) : Bool :=
  (if c.i > 0 && c.i < GRID_HEIGHT - 1 then
    cellContainsGameObject (g (c.i - 1) c.j) .ROCK_TEXT &&
      cellContainsGameObject (g (c.i + 1) c.j) .PUSH_TEXT
  else false) ||
  (if c.j > 0 && c.j < GRID_WIDTH - 1 then
    cellContainsGameObject (g c.i (c.j - 1)) .ROCK_TEXT &&
      cellContainsGameObject (g c.i (c.j + 1)) .PUSH_TEXT
  else false)

lemma checkRockIsPushIntact_eq_aligned (s : GameState) :
    checkRockIsPushIntact s = ruleTextsAligned s.grid s.isText := rfl

/-- C6.  After every `ApplyMove`, the cached rule flag equals the
adjacency predicate evaluated on the resulting grid at the is-text token's
position (the cache stays synchronised with the grid), and when the flag is
false no rock is relocated by any subsequent move. -/
theorem applyMove_ruleActive (s : GameState) (d : Direction) (hs : IsTextSync s) :
    ((applyMove s d).rockIsPushActive
      = ruleTextsAligned (applyMove s d).grid (applyMove s d).isText) ∧
    IsTextSync (applyMove s d) ∧
    ((applyMove s d).rockIsPushActive = false →
      ∀ (d' : Direction) (a b : Int),
        cellContainsGameObject ((applyMove (applyMove s d) d').grid a b) .ROCK
          = cellContainsGameObject ((applyMove s d).grid a b) .ROCK) := by
  refine ⟨?_, applyMove_isTextSync s d hs, ?_⟩
  · rw [applyMove_flag, applyMove_grid, applyMove_isText]
    exact checkRockIsPushIntact_eq_aligned _
  · intro hf d' a b
    exact applyMove_rock_inactive (applyMove s d) d' hf a b

/-- A concrete synchronised state for the C6 witness: the is-text token at
`(4, 12)` and nothing else on the grid. -/
def syncGrid : Grid := fun a b => if a = 4 ∧ b = 12 then 128 else 0

def syncState : GameState :=
  { grid := syncGrid, baba1 := ⟨5, 4⟩, baba2 := ⟨5, 12⟩, turn := 0, moves := [],
    key := ⟨11, 12⟩, isText := ⟨4, 12⟩, rockIsPushActive := false }

lemma syncState_isTextSync : IsTextSync syncState := by
  intro a b
  show cellContainsGameObject (syncGrid a b) .IS_TEXT = true ↔ a = (4 : Int) ∧ b = 12
  unfold syncGrid
  split_ifs with h
  · simp only [cellContainsGameObject, GameObject.idx]
    exact ⟨fun _ => h, fun _ => by decide⟩
  · simp only [cellContainsGameObject, GameObject.idx]
    exact ⟨fun hc => absurd hc (by decide), fun hc => absurd hc h⟩

theorem applyMove_ruleActive_witness :
    IsTextSync syncState ∧
    ((applyMove syncState .UP).rockIsPushActive
      = ruleTextsAligned (applyMove syncState .UP).grid (applyMove syncState .UP).isText) :=
  ⟨syncState_isTextSync, (applyMove_ruleActive syncState .UP syncState_isTextSync).1⟩

/-! ### C3: pushing into the door cell -/

/-- C3.  When the push chain reaches a cell containing the door (and no
wall), the resolver succeeds exactly when the vacated cell holds the key
and no other movable object under the current rule flag; a failed resolver
leaves the whole state untouched, and `MoveBaba` then leaves the Baba in
place — nothing moves along the chain. -/
theorem door_push_iff :
    (∀ (fuel : Nat) (s : GameState) (i j di dj : Int) (prev : Cell),
      fuel ≠ 0 →
      cellContainsGameObject (s.grid i j) .DOOR = true →
      cellContainsGameObject (s.grid i j) .IMMOVABLE = false →
      checkCellAndMoveObjects fuel s i j di dj prev
        = ((cellContainsGameObject prev .KEY &&
            !cellContainsMovableObject (removeFromCell prev .KEY) s.rockIsPushActive), s)) ∧
    (∀ (fuel : Nat) (s : GameState) (i j di dj : Int) (prev : Cell),
      (checkCellAndMoveObjects fuel s i j di dj prev).1 = false →
      (checkCellAndMoveObjects fuel s i j di dj prev).2 = s) ∧
    (∀ (s : GameState) (b : Coordinate) (d : Direction),
      moveBaba s b d = (s, b) ∨
      ∃ di dj, IsUnitDelta di dj ∧
        (checkCellAndMoveObjects CHAIN_FUEL s (b.i + di) (b.j + dj) di dj 0).1 = true ∧
        moveBaba s b d
          = ((checkCellAndMoveObjects CHAIN_FUEL s (b.i + di) (b.j + dj) di dj 0).2,
            ⟨b.i + di, b.j + dj⟩)) := by
  refine ⟨?_, checkCell_fail, ?_⟩
  · intro fuel s i j di dj prev hf hdoor himm
    cases fuel with
    | zero => exact absurd rfl hf
    | succ fuel =>
      rw [checkCell_succ_eq, if_neg (by simp [himm]), if_pos hdoor]
      by_cases hc : (cellContainsGameObject prev .KEY &&
          !cellContainsMovableObject (removeFromCell prev .KEY) s.rockIsPushActive) = true
      · rw [if_pos hc, hc]
      · rw [if_neg hc]
        have hcf : (cellContainsGameObject prev .KEY &&
            !cellContainsMovableObject (removeFromCell prev .KEY) s.rockIsPushActive) = false := by
          revert hc
          cases cellContainsGameObject prev .KEY &&
            !cellContainsMovableObject (removeFromCell prev .KEY) s.rockIsPushActive <;> simp
        rw [hcf]
  · intro s b d
    rcases moveBaba_cases s b d with h | ⟨di, dj, hu, h⟩
    · exact Or.inl h
    · by_cases hok : (checkCellAndMoveObjects CHAIN_FUEL s (b.i + di) (b.j + dj) di dj 0).1 = true
      · rw [if_pos hok] at h
        exact Or.inr ⟨di, dj, hu, hok, h⟩
      · rw [if_neg hok] at h
        have hfalse : (checkCellAndMoveObjects CHAIN_FUEL s (b.i + di) (b.j + dj) di dj 0).1
            = false := by
          revert hok
          cases (checkCellAndMoveObjects CHAIN_FUEL s (b.i + di) (b.j + dj) di dj 0).1 <;> simp
        rw [checkCell_fail CHAIN_FUEL s (b.i + di) (b.j + dj) di dj 0 hfalse] at h
        exact Or.inl h

/-- Concrete probe state for the C3 witness: a lone door at the fixed door
cell. -/
def doorProbeGrid : Grid := fun a b => if a = 12 ∧ b = 4 then 16 else 0

def doorProbeState : GameState :=
  { grid := doorProbeGrid, baba1 := ⟨0, 0⟩, baba2 := ⟨0, 0⟩, turn := 0, moves := [],
    key := ⟨12, 3⟩, isText := ⟨4, 12⟩, rockIsPushActive := false }

theorem door_push_iff_witness :
    (1 : Nat) ≠ 0 ∧
    cellContainsGameObject (doorProbeState.grid 12 4) .DOOR = true ∧
    cellContainsGameObject (doorProbeState.grid 12 4) .IMMOVABLE = false ∧
    (checkCellAndMoveObjects 1 doorProbeState 12 4 0 1 32).1 = true ∧
    (checkCellAndMoveObjects 1 doorProbeState 12 4 0 1 96).1 = false :=
  ⟨by decide, by decide, by decide,
    by
      rw [door_push_iff.1 1 doorProbeState 12 4 0 1 32 (by decide) (by decide) (by decide)]
      decide,
    by
      rw [door_push_iff.1 1 doorProbeState 12 4 0 1 96 (by decide) (by decide) (by decide)]
      decide⟩

/-! ### C4: nothing but the key can enter a door cell -/

/-- A resolver frame whose cell contains the door either fails outright or
succeeds without touching the state, and success certifies the key-alone
condition on the vacated cell. -/
lemma checkCell_door_frame (fuel : Nat) (s : GameState) (i j di dj : Int) (prev : Cell)
    (hdoor : cellContainsGameObject (s.grid i j) .DOOR = true) :
    checkCellAndMoveObjects fuel s i j di dj prev = (false, s) ∨
    (checkCellAndMoveObjects fuel s i j di dj prev = (true, s) ∧
      cellContainsGameObject prev .KEY = true ∧
      cellContainsMovableObject (removeFromCell prev .KEY) s.rockIsPushActive = false) := by
  cases fuel with
  | zero => exact Or.inl rfl
  | succ fuel =>
    rw [checkCell_succ_eq]
    by_cases himm : cellContainsGameObject (s.grid i j) .IMMOVABLE = true
    · rw [if_pos himm]
      exact Or.inl rfl
    · rw [if_neg himm, if_pos hdoor]
      by_cases hc : (cellContainsGameObject prev .KEY &&
          !cellContainsMovableObject (removeFromCell prev .KEY) s.rockIsPushActive) = true
      · rw [if_pos hc]
        rcases Bool.and_eq_true_iff.mp hc with ⟨hk, hnm⟩
        refine Or.inr ⟨rfl, hk, ?_⟩
        revert hnm
        cases cellContainsMovableObject (removeFromCell prev .KEY) s.rockIsPushActive <;> simp
      · rw [if_neg hc]
        exact Or.inl rfl

lemma moveObjStep_nofire (s : GameState) (i j ni nj : Int) (o : GameObject)
    (h : cellContainsGameObject (s.grid i j) o = false) :
    moveObjStep s i j ni nj o = s := by
  unfold moveObjStep
  rw [h]
  simp

lemma contains_mam_text_nofire (s : GameState) (i j ni nj : Int) (m : GameObject)
    (hm : m = .ROCK_TEXT ∨ m = .IS_TEXT ∨ m = .PUSH_TEXT)
    (hsrc : cellContainsGameObject (s.grid i j) m = false) (a b : Int) :
    cellContainsGameObject ((moveAlwaysMovables s i j ni nj).grid a b) m
      = cellContainsGameObject (s.grid a b) m := by
  unfold moveAlwaysMovables
  rcases hm with rfl | rfl | rfl
  · have h1 : cellContainsGameObject ((moveObjStep s i j ni nj .KEY).grid i j) .ROCK_TEXT
        = false := by
      rw [contains_moveObjStep_ne _ _ _ _ _ _ _ (by simp)]
      exact hsrc
    rw [contains_moveObjStep_ne _ _ _ _ _ _ _ (by simp),
      contains_moveObjStep_ne _ _ _ _ _ _ _ (by simp),
      moveObjStep_nofire _ _ _ _ _ _ h1,
      contains_moveObjStep_ne _ _ _ _ _ _ _ (by simp)]
  · have h1 : cellContainsGameObject
        ((moveObjStep (moveObjStep s i j ni nj .KEY) i j ni nj .ROCK_TEXT).grid i j)
        .IS_TEXT = false := by
      rw [contains_moveObjStep_ne _ _ _ _ _ _ _ (by simp),
        contains_moveObjStep_ne _ _ _ _ _ _ _ (by simp)]
      exact hsrc
    rw [contains_moveObjStep_ne _ _ _ _ _ _ _ (by simp),
      moveObjStep_nofire _ _ _ _ _ _ h1,
      contains_moveObjStep_ne _ _ _ _ _ _ _ (by simp),
      contains_moveObjStep_ne _ _ _ _ _ _ _ (by simp)]
  · have h1 : cellContainsGameObject
        ((moveObjStep (moveObjStep (moveObjStep s i j ni nj .KEY) i j ni nj .ROCK_TEXT)
          i j ni nj .IS_TEXT).grid i j) .PUSH_TEXT = false := by
      rw [contains_moveObjStep_ne _ _ _ _ _ _ _ (by simp),
        contains_moveObjStep_ne _ _ _ _ _ _ _ (by simp),
        contains_moveObjStep_ne _ _ _ _ _ _ _ (by simp)]
      exact hsrc
    rw [moveObjStep_nofire _ _ _ _ _ _ h1,
      contains_moveObjStep_ne _ _ _ _ _ _ _ (by simp),
      contains_moveObjStep_ne _ _ _ _ _ _ _ (by simp),
      contains_moveObjStep_ne _ _ _ _ _ _ _ (by simp)]

/-- Cells containing the door never change their contents during a push
chain, except for possibly gaining the key. -/
lemma checkCell_doorCell_inv (fuel : Nat) (s : GameState) (i j di dj : Int) (prev : Cell)
    (a b : Int) :
    cellContainsGameObject (s.grid a b) .DOOR = true →
    ∀ m : GameObject, m ≠ .KEY →
    cellContainsGameObject ((checkCellAndMoveObjects fuel s i j di dj prev).2.grid a b) m
      = cellContainsGameObject (s.grid a b) m := by
  induction fuel generalizing s i j prev with
  | zero => intro _ m _; rfl
  | succ fuel ih =>
    intro hdoor m hm
    rw [checkCell_succ_eq]
    rcases hr : checkCellAndMoveObjects fuel s (i + di) (j + dj) di dj (s.grid i j)
      with ⟨ok1, s1⟩
    have ihs := ih s (i + di) (j + dj) (s.grid i j)
    rw [hr] at ihs
    split_ifs with h1 h2 h3 h4 h5
    · rfl
    · rfl
    · rfl
    · rfl
    · rfl
    · cases ok1
      · exact ihs hdoor m hm
      · simp only []
        have habij : ¬(a = i ∧ b = j) := by
          rintro ⟨rfl, rfl⟩
          exact h2 hdoor
        by_cases habnn : a = i + di ∧ b = j + dj
        · obtain ⟨rfl, rfl⟩ := habnn
          have hdf := checkCell_door_frame fuel s (i + di) (j + dj) di dj (s.grid i j) hdoor
          rw [hr] at hdf
          rcases hdf with hcontra | ⟨heq, hkey, hnomov⟩
          · exact absurd (congrArg Prod.fst hcontra) (by simp)
          · have hs1 : s1 = s := congrArg Prod.snd heq
            subst hs1
            obtain ⟨k1, k2, k3, k4, k5⟩ := movable_bits hnomov
            have hcellRT : cellContainsGameObject (s1.grid i j) .ROCK_TEXT = false := by
              rw [cellContainsGameObject_removeFromCell] at k2
              simpa using k2
            have hcellIT : cellContainsGameObject (s1.grid i j) .IS_TEXT = false := by
              rw [cellContainsGameObject_removeFromCell] at k3
              simpa using k3
            have hcellPT : cellContainsGameObject (s1.grid i j) .PUSH_TEXT = false := by
              rw [cellContainsGameObject_removeFromCell] at k4
              simpa using k4
            have hflagmam : (moveAlwaysMovables s1 i j (i + di) (j + dj)).rockIsPushActive
                = s1.rockIsPushActive :=
              (moveAlwaysMovables_ctx s1 i j (i + di) (j + dj)).2.2.2.2
            have hguard : ((moveAlwaysMovables s1 i j (i + di) (j + dj)).rockIsPushActive &&
                cellContainsGameObject (s1.grid i j) .ROCK) = false := by
              rw [hflagmam]
              by_cases hact : s1.rockIsPushActive = true
              · have hcellRock : cellContainsGameObject (s1.grid i j) .ROCK = false := by
                  have := k5 hact
                  rw [cellContainsGameObject_removeFromCell] at this
                  simpa using this
                rw [hcellRock, Bool.and_false]
              · rw [Bool.not_eq_true] at hact
                rw [hact, Bool.false_and]
            rw [if_neg (by simp [hguard])]
            by_cases hmtext : m = .ROCK_TEXT ∨ m = .IS_TEXT ∨ m = .PUSH_TEXT
            · refine contains_mam_text_nofire s1 i j (i + di) (j + dj) m hmtext ?_ (i + di)
                (j + dj)
              rcases hmtext with rfl | rfl | rfl
              · exact hcellRT
              · exact hcellIT
              · exact hcellPT
            · push_neg at hmtext
              exact contains_moveAlwaysMovables_ne s1 i j (i + di) (j + dj) m hm hmtext.1
                hmtext.2.1 hmtext.2.2 (i + di) (j + dj)
        · split_ifs with hg
          · rw [moveRock_offcell _ _ _ _ _ _ _ habij habnn,
              moveAlwaysMovables_offcell _ _ _ _ _ _ _ habij habnn]
            exact ihs hdoor m hm
          · rw [moveAlwaysMovables_offcell _ _ _ _ _ _ _ habij habnn]
            exact ihs hdoor m hm

lemma moveBaba_doorCell (s : GameState) (b : Coordinate) (d : Direction) (a b' : Int)
    (hdoor : cellContainsGameObject (s.grid a b') .DOOR = true) (m : GameObject)
    (hm : m ≠ .KEY) :
    cellContainsGameObject ((moveBaba s b d).1.grid a b') m
      = cellContainsGameObject (s.grid a b') m := by
  rcases moveBaba_cases s b d with h | ⟨di, dj, -, h⟩
  · rw [h]
  · rw [h]
    split_ifs <;>
      exact checkCell_doorCell_inv CHAIN_FUEL s (b.i + di) (b.j + dj) di dj 0 a b' hdoor m hm

/-- C4 (amended).  At any cell containing the door, every object bit other
than the key's is untouched by `ApplyMove`: in particular the rock-text and
push-text tokens can never be pushed into a door cell. -/
theorem applyMove_doorCell (s : GameState) (d : Direction) (a b : Int)
    (hdoor : cellContainsGameObject (s.grid a b) .DOOR = true) (m : GameObject)
    (hm : m ≠ .KEY) :
    cellContainsGameObject ((applyMove s d).grid a b) m
      = cellContainsGameObject (s.grid a b) m := by
  rw [applyMove_grid]
  have hdnc : ¬IsCarriedObj .DOOR := by
    intro hc
    rcases hc with h | h | h | h | h <;> simp at h
  have hdoor1 : cellContainsGameObject ((applyMoveMid1 s d).grid a b) .DOOR = true := by
    show cellContainsGameObject ((moveBaba s s.baba1 d).1.grid a b) .DOOR = true
    rw [moveBaba_fixed s s.baba1 d .DOOR hdnc a b]
    exact hdoor
  show cellContainsGameObject
    ((moveBaba (applyMoveMid1 s d) (applyMoveMid1 s d).baba2 d).1.grid a b) m
      = cellContainsGameObject (s.grid a b) m
  rw [moveBaba_doorCell (applyMoveMid1 s d) (applyMoveMid1 s d).baba2 d a b hdoor1 m hm]
  show cellContainsGameObject ((moveBaba s s.baba1 d).1.grid a b) m
    = cellContainsGameObject (s.grid a b) m
  exact moveBaba_doorCell s s.baba1 d a b hdoor m hm

/-- C4 as stated is false: no state and move ever push the rock-text or
push-text token into a cell containing the door. -/
theorem no_text_into_door :
    (∃ (s : GameState) (d : Direction) (a b : Int),
      cellContainsGameObject (s.grid a b) .DOOR = true ∧
      ((cellContainsGameObject (s.grid a b) .ROCK_TEXT = false ∧
        cellContainsGameObject ((applyMove s d).grid a b) .ROCK_TEXT = true) ∨
       (cellContainsGameObject (s.grid a b) .PUSH_TEXT = false ∧
        cellContainsGameObject ((applyMove s d).grid a b) .PUSH_TEXT = true))) = False := by
  apply eq_false
  rintro ⟨s, d, a, b, hdoor, ⟨h1, h2⟩ | ⟨h1, h2⟩⟩
  · rw [applyMove_doorCell s d a b hdoor .ROCK_TEXT (by simp), h1] at h2
    exact absurd h2 (by simp)
  · rw [applyMove_doorCell s d a b hdoor .PUSH_TEXT (by simp), h1] at h2
    exact absurd h2 (by simp)

theorem applyMove_doorCell_witness :
    cellContainsGameObject (doorProbeState.grid 12 4) .DOOR = true ∧
    GameObject.ROCK_TEXT ≠ GameObject.KEY ∧
    cellContainsGameObject ((applyMove doorProbeState .RIGHT).grid 12 4) .ROCK_TEXT
      = cellContainsGameObject (doorProbeState.grid 12 4) .ROCK_TEXT :=
  ⟨by decide, by decide,
    applyMove_doorCell doorProbeState .RIGHT 12 4 (by decide) .ROCK_TEXT (by decide)⟩

/-! ### Counting object bits over the grid window -/

/-- Number of cells of the `18 × 18` window whose bitmask contains `o`. -/
def countGrid (g : Grid) (o : GameObject) : Nat :=
  ((List.range 18).map (fun i =>
    ((List.range 18).map (fun j =>
      if cellContainsGameObject (g (i : Int) (j : Int)) o then 1 else 0)).sum)).sum

lemma range_sum_single_le (n x : Nat) (hx : x < n) (f : Nat → Nat) :
    f x ≤ ((List.range n).map f).sum := by
  refine List.single_le_sum (fun v _ => Nat.zero_le v) _ ?_
  exact List.mem_map.mpr ⟨x, List.mem_range.mpr hx, rfl⟩

lemma range_sum_pair_le (n x y : Nat) (hx : x < n) (hy : y < n) (hxy : x ≠ y)
    (f : Nat → Nat) : f x + f y ≤ ((List.range n).map f).sum := by
  induction n with
  | zero => exact absurd hx (Nat.not_lt_zero x)
  | succ n ihn =>
    rw [List.range_succ, List.map_append, List.sum_append]
    simp only [List.map_cons, List.map_nil, List.sum_cons, List.sum_nil]
    by_cases hxn : x = n
    · subst hxn
      have hy2 : y < x := by omega
      have := range_sum_single_le x y hy2 f
      omega
    · by_cases hyn : y = n
      · subst hyn
        have hx2 : x < y := by omega
        have := range_sum_single_le y x hx2 f
        omega
      · have := ihn (by omega) (by omega)
        omega

lemma range_map_sum_update (n x : Nat) (hx : x < n) (f f' : Nat → Nat)
    (h : ∀ y, y ≠ x → f' y = f y) :
    ((List.range n).map f').sum + f x = ((List.range n).map f).sum + f' x := by
  induction n with
  | zero => exact absurd hx (Nat.not_lt_zero x)
  | succ n ihn =>
    rw [List.range_succ, List.map_append, List.map_append, List.sum_append, List.sum_append]
    simp only [List.map_cons, List.map_nil, List.sum_cons, List.sum_nil]
    by_cases hxn : x = n
    · subst hxn
      have hpre : (List.range x).map f' = (List.range x).map f :=
        List.map_congr_left (fun y hy => h y (by have := List.mem_range.mp hy; omega))
      rw [hpre]
      omega
    · have hfn : f' n = f n := h n (fun he => hxn he.symm)
      have := ihn (by omega)
      omega

lemma sum_map_range_congr (n : Nat) (f g : Nat → Nat) (h : ∀ i, i < n → f i = g i) :
    ((List.range n).map f).sum = ((List.range n).map g).sum := by
  apply congrArg List.sum
  apply List.map_congr_left
  intro i hi
  exact h i (List.mem_range.mp hi)

lemma countGrid_congr (g1 g2 : Grid) (o : GameObject)
    (h : ∀ a b : Int, 0 ≤ a → a < 18 → 0 ≤ b → b < 18 →
      cellContainsGameObject (g1 a b) o = cellContainsGameObject (g2 a b) o) :
    countGrid g1 o = countGrid g2 o := by
  refine sum_map_range_congr 18
    (fun i => ((List.range 18).map (fun j =>
      if cellContainsGameObject (g1 (i : Int) (j : Int)) o then 1 else 0)).sum)
    (fun i => ((List.range 18).map (fun j =>
      if cellContainsGameObject (g2 (i : Int) (j : Int)) o then 1 else 0)).sum)
    (fun i hi => ?_)
  refine sum_map_range_congr 18
    (fun j => if cellContainsGameObject (g1 (i : Int) (j : Int)) o then 1 else 0)
    (fun j => if cellContainsGameObject (g2 (i : Int) (j : Int)) o then 1 else 0)
    (fun j hj => ?_)
  show (if cellContainsGameObject (g1 (i : Int) (j : Int)) o then 1 else 0)
    = (if cellContainsGameObject (g2 (i : Int) (j : Int)) o then 1 else 0)
  rw [h (i : Int) (j : Int) (by omega) (by omega) (by omega) (by omega)]

lemma countGrid_setCell (g : Grid) (a b : Int) (v : Cell) (o : GameObject)
    (ha : 0 ≤ a) (ha2 : a < 18) (hb : 0 ≤ b) (hb2 : b < 18) :
    countGrid (setCell g a b v) o + (if cellContainsGameObject (g a b) o then 1 else 0)
      = countGrid g o + (if cellContainsGameObject v o then 1 else 0) := by
  have hcast_a : ((a.toNat : Nat) : Int) = a := Int.toNat_of_nonneg ha
  have hcast_b : ((b.toNat : Nat) : Int) = b := Int.toNat_of_nonneg hb
  have hinner : ((List.range 18).map (fun c =>
        if cellContainsGameObject (setCell g a b v a (c : Int)) o then 1 else 0)).sum
      + (if cellContainsGameObject (g a ((b.toNat : Nat) : Int)) o then 1 else 0)
      = ((List.range 18).map (fun c =>
        if cellContainsGameObject (g a (c : Int)) o then 1 else 0)).sum
      + (if cellContainsGameObject (setCell g a b v a ((b.toNat : Nat) : Int)) o
        then 1 else 0) :=
    range_map_sum_update 18 b.toNat (by omega)
      (fun c => if cellContainsGameObject (g a (c : Int)) o then 1 else 0)
      (fun c => if cellContainsGameObject (setCell g a b v a (c : Int)) o then 1 else 0)
      (fun c hc => by
        show (if cellContainsGameObject (setCell g a b v a (c : Int)) o then 1 else 0)
          = (if cellContainsGameObject (g a (c : Int)) o then 1 else 0)
        rw [setCell_other]
        rintro ⟨-, hcb⟩
        exact hc (by omega))
  rw [hcast_b, setCell_same] at hinner
  have houter : ((List.range 18).map (fun r => ((List.range 18).map (fun c =>
        if cellContainsGameObject (setCell g a b v (r : Int) (c : Int)) o
        then 1 else 0)).sum)).sum
      + ((List.range 18).map (fun c =>
        if cellContainsGameObject (g ((a.toNat : Nat) : Int) (c : Int)) o then 1 else 0)).sum
      = ((List.range 18).map (fun r => ((List.range 18).map (fun c =>
        if cellContainsGameObject (g (r : Int) (c : Int)) o then 1 else 0)).sum)).sum
      + ((List.range 18).map (fun c =>
        if cellContainsGameObject (setCell g a b v ((a.toNat : Nat) : Int) (c : Int)) o
        then 1 else 0)).sum :=
    range_map_sum_update 18 a.toNat (by omega)
      (fun r => ((List.range 18).map (fun c =>
        if cellContainsGameObject (g (r : Int) (c : Int)) o then 1 else 0)).sum)
      (fun r => ((List.range 18).map (fun c =>
        if cellContainsGameObject (setCell g a b v (r : Int) (c : Int)) o
        then 1 else 0)).sum)
      (fun r hr => by
        refine sum_map_range_congr 18
          (fun c => if cellContainsGameObject (setCell g a b v (r : Int) (c : Int)) o
            then 1 else 0)
          (fun c => if cellContainsGameObject (g (r : Int) (c : Int)) o then 1 else 0)
          (fun c hc => ?_)
        show (if cellContainsGameObject (setCell g a b v (r : Int) (c : Int)) o then 1 else 0)
          = (if cellContainsGameObject (g (r : Int) (c : Int)) o then 1 else 0)
        rw [setCell_other]
        rintro ⟨hra, -⟩
        exact hr (by omega))
  rw [hcast_a] at houter
  unfold countGrid
  omega

lemma countGrid_setCell_oob (g : Grid) (a b : Int) (v : Cell) (o : GameObject)
    (h : ¬InWindow a b) : countGrid (setCell g a b v) o = countGrid g o := by
  apply countGrid_congr
  intro x y hx hx2 hy hy2
  rw [setCell_other]
  rintro ⟨rfl, rfl⟩
  exact h ⟨hx, hx2, hy, hy2⟩

lemma countGrid_moveObjStep_ne (s : GameState) (i j ni nj : Int) (obj o : GameObject)
    (ho : o ≠ obj) :
    countGrid (moveObjStep s i j ni nj obj).grid o = countGrid s.grid o :=
  countGrid_congr _ _ _ (fun a b _ _ _ _ => contains_moveObjStep_ne s i j ni nj obj o ho a b)

lemma countGrid_moveRock_ne (s : GameState) (i j ni nj : Int) (o : GameObject)
    (ho : o ≠ .ROCK) :
    countGrid (moveRock s i j ni nj).grid o = countGrid s.grid o :=
  countGrid_congr _ _ _ (fun a b _ _ _ _ => contains_moveRock_ne s i j ni nj o ho a b)

lemma countGrid_moveObjStep_self (s : GameState) (i j ni nj : Int) (obj : GameObject)
    (hi1 : 0 ≤ i) (hi2 : i < 18) (hj1 : 0 ≤ j) (hj2 : j < 18)
    (hn1 : 0 ≤ ni) (hn2 : ni < 18) (hn3 : 0 ≤ nj) (hn4 : nj < 18)
    (hne : ¬(ni = i ∧ nj = j))
    (htgt : cellContainsGameObject (s.grid ni nj) obj = false) :
    countGrid (moveObjStep s i j ni nj obj).grid obj = countGrid s.grid obj := by
  by_cases hf : cellContainsGameObject (s.grid i j) obj = true
  · rw [moveObjStep_grid, if_pos hf]
    have h1 := countGrid_setCell s.grid i j (removeFromCell (s.grid i j) obj) obj
      hi1 hi2 hj1 hj2
    have hrm : cellContainsGameObject (removeFromCell (s.grid i j) obj) obj = false := by
      rw [cellContainsGameObject_removeFromCell, beq_obj_self]
      simp
    have hg1n : setCell s.grid i j (removeFromCell (s.grid i j) obj) ni nj = s.grid ni nj :=
      setCell_other _ _ _ _ _ _ hne
    have h2 := countGrid_setCell (setCell s.grid i j (removeFromCell (s.grid i j) obj))
      ni nj (addToCell (setCell s.grid i j (removeFromCell (s.grid i j) obj) ni nj) obj) obj
      hn1 hn2 hn3 hn4
    have hadd : cellContainsGameObject
        (addToCell (setCell s.grid i j (removeFromCell (s.grid i j) obj) ni nj) obj) obj
        = true := by
      rw [cellContainsGameObject_addToCell, beq_obj_self]
      simp
    have htgt2 : cellContainsGameObject
        (setCell s.grid i j (removeFromCell (s.grid i j) obj) ni nj) obj = false := by
      rw [hg1n]
      exact htgt
    rw [hf, hrm] at h1
    rw [htgt2, hadd] at h2
    simp only [if_true, if_false] at h1 h2
    omega
  · rw [moveObjStep_grid, if_neg hf]

lemma countGrid_moveRock_self (s : GameState) (i j ni nj : Int)
    (hi1 : 0 ≤ i) (hi2 : i < 18) (hj1 : 0 ≤ j) (hj2 : j < 18)
    (hn1 : 0 ≤ ni) (hn2 : ni < 18) (hn3 : 0 ≤ nj) (hn4 : nj < 18)
    (hne : ¬(ni = i ∧ nj = j))
    (hsrc : cellContainsGameObject (s.grid i j) .ROCK = true)
    (htgt : cellContainsGameObject (s.grid ni nj) .ROCK = false) :
    countGrid (moveRock s i j ni nj).grid .ROCK = countGrid s.grid .ROCK := by
  show countGrid (setCell (setCell s.grid i j (removeFromCell (s.grid i j) .ROCK)) ni nj
    (addToCell (setCell s.grid i j (removeFromCell (s.grid i j) .ROCK) ni nj) .ROCK)) .ROCK
      = countGrid s.grid .ROCK
  have h1 := countGrid_setCell s.grid i j (removeFromCell (s.grid i j) .ROCK) .ROCK
    hi1 hi2 hj1 hj2
  have hrm : cellContainsGameObject (removeFromCell (s.grid i j) .ROCK) .ROCK = false := by
    rw [cellContainsGameObject_removeFromCell, beq_obj_self]
    simp
  have hg1n : setCell s.grid i j (removeFromCell (s.grid i j) .ROCK) ni nj = s.grid ni nj :=
    setCell_other _ _ _ _ _ _ hne
  have h2 := countGrid_setCell (setCell s.grid i j (removeFromCell (s.grid i j) .ROCK))
    ni nj (addToCell (setCell s.grid i j (removeFromCell (s.grid i j) .ROCK) ni nj) .ROCK)
    .ROCK hn1 hn2 hn3 hn4
  have hadd : cellContainsGameObject
      (addToCell (setCell s.grid i j (removeFromCell (s.grid i j) .ROCK) ni nj) .ROCK) .ROCK
      = true := by
    rw [cellContainsGameObject_addToCell, beq_obj_self]
    simp
  have htgt2 : cellContainsGameObject
      (setCell s.grid i j (removeFromCell (s.grid i j) .ROCK) ni nj) .ROCK = false := by
    rw [hg1n]
    exact htgt
  rw [hsrc, hrm] at h1
  rw [htgt2, hadd] at h2
  simp only [if_true, if_false] at h1 h2
  omega

lemma countGrid_mam (s : GameState) (i j ni nj : Int) (o : GameObject)
    (ho : o = .KEY ∨ o = .ROCK_TEXT ∨ o = .IS_TEXT ∨ o = .PUSH_TEXT)
    (hi1 : 0 ≤ i) (hi2 : i < 18) (hj1 : 0 ≤ j) (hj2 : j < 18)
    (hn1 : 0 ≤ ni) (hn2 : ni < 18) (hn3 : 0 ≤ nj) (hn4 : nj < 18)
    (hne : ¬(ni = i ∧ nj = j))
    (htgt : cellContainsGameObject (s.grid ni nj) o = false) :
    countGrid (moveAlwaysMovables s i j ni nj).grid o = countGrid s.grid o := by
  unfold moveAlwaysMovables
  rcases ho with rfl | rfl | rfl | rfl
  · rw [countGrid_moveObjStep_ne _ _ _ _ _ _ _ (by simp),
      countGrid_moveObjStep_ne _ _ _ _ _ _ _ (by simp),
      countGrid_moveObjStep_ne _ _ _ _ _ _ _ (by simp)]
    exact countGrid_moveObjStep_self s i j ni nj .KEY hi1 hi2 hj1 hj2 hn1 hn2 hn3 hn4 hne htgt
  · rw [countGrid_moveObjStep_ne _ _ _ _ _ _ _ (by simp),
      countGrid_moveObjStep_ne _ _ _ _ _ _ _ (by simp)]
    have htgt2 : cellContainsGameObject
        ((moveObjStep s i j ni nj .KEY).grid ni nj) .ROCK_TEXT = false := by
      rw [contains_moveObjStep_ne _ _ _ _ _ _ _ (by simp)]
      exact htgt
    rw [countGrid_moveObjStep_self _ i j ni nj .ROCK_TEXT hi1 hi2 hj1 hj2 hn1 hn2 hn3 hn4
      hne htgt2]
    exact countGrid_moveObjStep_ne s i j ni nj .KEY .ROCK_TEXT (by simp)
  · rw [countGrid_moveObjStep_ne _ _ _ _ _ _ _ (by simp)]
    have htgt2 : cellContainsGameObject
        ((moveObjStep (moveObjStep s i j ni nj .KEY) i j ni nj .ROCK_TEXT).grid ni nj)
        .IS_TEXT = false := by
      rw [contains_moveObjStep_ne _ _ _ _ _ _ _ (by simp),
        contains_moveObjStep_ne _ _ _ _ _ _ _ (by simp)]
      exact htgt
    rw [countGrid_moveObjStep_self _ i j ni nj .IS_TEXT hi1 hi2 hj1 hj2 hn1 hn2 hn3 hn4
      hne htgt2]
    rw [countGrid_moveObjStep_ne _ _ _ _ _ _ _ (by simp)]
    exact countGrid_moveObjStep_ne s i j ni nj .KEY .IS_TEXT (by simp)
  · have htgt2 : cellContainsGameObject
        ((moveObjStep (moveObjStep (moveObjStep s i j ni nj .KEY) i j ni nj .ROCK_TEXT)
          i j ni nj .IS_TEXT).grid ni nj) .PUSH_TEXT = false := by
      rw [contains_moveObjStep_ne _ _ _ _ _ _ _ (by simp),
        contains_moveObjStep_ne _ _ _ _ _ _ _ (by simp),
        contains_moveObjStep_ne _ _ _ _ _ _ _ (by simp)]
      exact htgt
    rw [countGrid_moveObjStep_self _ i j ni nj .PUSH_TEXT hi1 hi2 hj1 hj2 hn1 hn2 hn3 hn4
      hne htgt2]
    rw [countGrid_moveObjStep_ne _ _ _ _ _ _ _ (by simp),
      countGrid_moveObjStep_ne _ _ _ _ _ _ _ (by simp)]
    exact countGrid_moveObjStep_ne s i j ni nj .KEY .PUSH_TEXT (by simp)

lemma countGrid_ge_two (g : Grid) (o : GameObject) (a b c d : Int)
    (hw1 : InWindow a b) (hw2 : InWindow c d) (hne : ¬(a = c ∧ b = d))
    (h1 : cellContainsGameObject (g a b) o = true)
    (h2 : cellContainsGameObject (g c d) o = true) : 2 ≤ countGrid g o := by
  obtain ⟨ha1, ha2, hb1, hb2⟩ := hw1
  obtain ⟨hc1, hc2, hd1, hd2⟩ := hw2
  have hcast_a : ((a.toNat : Nat) : Int) = a := Int.toNat_of_nonneg ha1
  have hcast_b : ((b.toNat : Nat) : Int) = b := Int.toNat_of_nonneg hb1
  have hcast_c : ((c.toNat : Nat) : Int) = c := Int.toNat_of_nonneg hc1
  have hcast_d : ((d.toNat : Nat) : Int) = d := Int.toNat_of_nonneg hd1
  unfold countGrid
  by_cases hac : a = c
  · subst hac
    have hbd : b.toNat ≠ d.toNat := by
      intro he
      exact hne ⟨rfl, by omega⟩
    have hrow : (if cellContainsGameObject (g a ((b.toNat : Nat) : Int)) o then 1 else 0)
        + (if cellContainsGameObject (g a ((d.toNat : Nat) : Int)) o then 1 else 0)
        ≤ ((List.range 18).map (fun cc =>
          if cellContainsGameObject (g a (cc : Int)) o then 1 else 0)).sum :=
      range_sum_pair_le 18 b.toNat d.toNat (by omega) (by omega) hbd
        (fun cc => if cellContainsGameObject (g a (cc : Int)) o then 1 else 0)
    rw [hcast_b, hcast_d, h1, h2] at hrow
    have houter : ((List.range 18).map (fun cc =>
        if cellContainsGameObject (g ((a.toNat : Nat) : Int) (cc : Int)) o then 1 else 0)).sum
        ≤ ((List.range 18).map (fun r => ((List.range 18).map (fun cc =>
          if cellContainsGameObject (g (r : Int) (cc : Int)) o then 1 else 0)).sum)).sum :=
      range_sum_single_le 18 a.toNat (by omega)
        (fun r => ((List.range 18).map (fun cc =>
          if cellContainsGameObject (g (r : Int) (cc : Int)) o then 1 else 0)).sum)
    rw [hcast_a] at houter
    simp only [if_true] at hrow
    omega
  · have hacN : a.toNat ≠ c.toNat := by
      intro he
      exact hac (by omega)
    have hrow1 : (if cellContainsGameObject (g a ((b.toNat : Nat) : Int)) o then 1 else 0)
        ≤ ((List.range 18).map (fun cc =>
          if cellContainsGameObject (g a (cc : Int)) o then 1 else 0)).sum :=
      range_sum_single_le 18 b.toNat (by omega)
        (fun cc => if cellContainsGameObject (g a (cc : Int)) o then 1 else 0)
    have hrow2 : (if cellContainsGameObject (g c ((d.toNat : Nat) : Int)) o then 1 else 0)
        ≤ ((List.range 18).map (fun cc =>
          if cellContainsGameObject (g c (cc : Int)) o then 1 else 0)).sum :=
      range_sum_single_le 18 d.toNat (by omega)
        (fun cc => if cellContainsGameObject (g c (cc : Int)) o then 1 else 0)
    rw [hcast_b, h1] at hrow1
    rw [hcast_d, h2] at hrow2
    have houter : ((List.range 18).map (fun cc =>
        if cellContainsGameObject (g ((a.toNat : Nat) : Int) (cc : Int)) o then 1 else 0)).sum
        + ((List.range 18).map (fun cc =>
          if cellContainsGameObject (g ((c.toNat : Nat) : Int) (cc : Int)) o
          then 1 else 0)).sum
        ≤ ((List.range 18).map (fun r => ((List.range 18).map (fun cc =>
          if cellContainsGameObject (g (r : Int) (cc : Int)) o then 1 else 0)).sum)).sum :=
      range_sum_pair_le 18 a.toNat c.toNat (by omega) (by omega) hacN
        (fun r => ((List.range 18).map (fun cc =>
          if cellContainsGameObject (g (r : Int) (cc : Int)) o then 1 else 0)).sum)
    rw [hcast_a, hcast_c] at houter
    simp only [if_true] at hrow1 hrow2
    omega

/-! ### Object conservation along a push chain -/

lemma window_step {i j di dj : Int} (hw : InWindow i j) (hd : IsUnitDelta di dj)
    (hb : willGoOutOfBounds i j di dj = false) : InWindow (i + di) (j + dj) := by
  obtain ⟨h1, h2, h3, h4⟩ := hw
  simp only [willGoOutOfBounds, GRID_HEIGHT, GRID_WIDTH, Bool.or_eq_false_iff,
    Bool.and_eq_false_iff, beq_eq_false_iff_ne, ne_eq, decide_eq_false_iff_not, not_lt] at hb
  rcases hd with ⟨rfl, rfl⟩ | ⟨rfl, rfl⟩ | ⟨rfl, rfl⟩ | ⟨rfl, rfl⟩ <;>
    exact ⟨by omega, by omega, by omega, by omega⟩

lemma inWindow_of_movable {g : Grid} {i j : Int} {act : Bool} (hz : InBoundsZero g)
    (h : cellContainsMovableObject (g i j) act = true) : InWindow i j := by
  by_contra hni
  exact movable_ne_zero h (hz i j hni)

lemma countGrid_mam_ne (s : GameState) (i j ni nj : Int) (o : GameObject)
    (h1 : o ≠ .KEY) (h2 : o ≠ .ROCK_TEXT) (h3 : o ≠ .IS_TEXT) (h4 : o ≠ .PUSH_TEXT) :
    countGrid (moveAlwaysMovables s i j ni nj).grid o = countGrid s.grid o :=
  countGrid_congr _ _ _ (fun a b _ _ _ _ =>
    contains_moveAlwaysMovables_ne s i j ni nj o h1 h2 h3 h4 a b)

lemma countGrid_mam_case (s : GameState) (i j ni nj : Int) (o : GameObject)
    (ho : o = .KEY ∨ o = .ROCK_TEXT ∨ o = .IS_TEXT ∨ o = .PUSH_TEXT)
    (hi1 : 0 ≤ i) (hi2 : i < 18) (hj1 : 0 ≤ j) (hj2 : j < 18)
    (hn1 : 0 ≤ ni) (hn2 : ni < 18) (hn3 : 0 ≤ nj) (hn4 : nj < 18)
    (hne : ¬(ni = i ∧ nj = j))
    (h : cellContainsGameObject (s.grid ni nj) o = false ∨
      cellContainsGameObject (s.grid i j) o = false) :
    countGrid (moveAlwaysMovables s i j ni nj).grid o = countGrid s.grid o := by
  rcases h with htgt | hsrc
  · exact countGrid_mam s i j ni nj o ho hi1 hi2 hj1 hj2 hn1 hn2 hn3 hn4 hne htgt
  · unfold moveAlwaysMovables
    rcases ho with rfl | rfl | rfl | rfl
    · rw [moveObjStep_nofire s i j ni nj .KEY hsrc,
        countGrid_moveObjStep_ne _ _ _ _ _ _ _ (by simp),
        countGrid_moveObjStep_ne _ _ _ _ _ _ _ (by simp)]
      exact countGrid_moveObjStep_ne s i j ni nj .ROCK_TEXT .KEY (by simp)
    · have hsrc2 : cellContainsGameObject
          ((moveObjStep s i j ni nj .KEY).grid i j) .ROCK_TEXT = false := by
        rw [contains_moveObjStep_ne _ _ _ _ _ _ _ (by simp)]
        exact hsrc
      rw [moveObjStep_nofire _ i j ni nj .ROCK_TEXT hsrc2,
        countGrid_moveObjStep_ne _ _ _ _ _ _ _ (by simp),
        countGrid_moveObjStep_ne _ _ _ _ _ _ _ (by simp)]
      exact countGrid_moveObjStep_ne s i j ni nj .KEY .ROCK_TEXT (by simp)
    · have hsrc2 : cellContainsGameObject
          ((moveObjStep (moveObjStep s i j ni nj .KEY) i j ni nj .ROCK_TEXT).grid i j)
            .IS_TEXT = false := by
        rw [contains_moveObjStep_ne _ _ _ _ _ _ _ (by simp),
          contains_moveObjStep_ne _ _ _ _ _ _ _ (by simp)]
        exact hsrc
      rw [moveObjStep_nofire _ i j ni nj .IS_TEXT hsrc2,
        countGrid_moveObjStep_ne _ _ _ _ _ _ _ (by simp),
        countGrid_moveObjStep_ne _ _ _ _ _ _ _ (by simp)]
      exact countGrid_moveObjStep_ne s i j ni nj .KEY .IS_TEXT (by simp)
    · have hsrc2 : cellContainsGameObject
          ((moveObjStep (moveObjStep (moveObjStep s i j ni nj .KEY) i j ni nj .ROCK_TEXT)
            i j ni nj .IS_TEXT).grid i j) .PUSH_TEXT = false := by
        rw [contains_moveObjStep_ne _ _ _ _ _ _ _ (by simp),
          contains_moveObjStep_ne _ _ _ _ _ _ _ (by simp),
          contains_moveObjStep_ne _ _ _ _ _ _ _ (by simp)]
        exact hsrc
      rw [moveObjStep_nofire _ i j ni nj .PUSH_TEXT hsrc2,
        countGrid_moveObjStep_ne _ _ _ _ _ _ _ (by simp),
        countGrid_moveObjStep_ne _ _ _ _ _ _ _ (by simp)]
      exact countGrid_moveObjStep_ne s i j ni nj .KEY .PUSH_TEXT (by simp)

lemma inBoundsZero_mam {s : GameState} {i j ni nj : Int} (hz : InBoundsZero s.grid)
    (hwi : InWindow i j) (hwn : InWindow ni nj) :
    InBoundsZero (moveAlwaysMovables s i j ni nj).grid := by
  intro a b hab
  rw [moveAlwaysMovables_offcell]
  · exact hz a b hab
  · rintro ⟨rfl, rfl⟩
    exact hab hwi
  · rintro ⟨rfl, rfl⟩
    exact hab hwn

lemma inBoundsZero_moveRock {s : GameState} {i j ni nj : Int} (hz : InBoundsZero s.grid)
    (hwi : InWindow i j) (hwn : InWindow ni nj) :
    InBoundsZero (moveRock s i j ni nj).grid := by
  intro a b hab
  rw [moveRock_offcell]
  · exact hz a b hab
  · rintro ⟨rfl, rfl⟩
    exact hab hwi
  · rintro ⟨rfl, rfl⟩
    exact hab hwn

/-- Along a push chain, the grid content stays inside the window and every
carried object kind keeps its total count, provided at most one key exists
(pushing a second key onto a door cell already holding one would merge the
two key bits — the door special case is the one merge point). -/
lemma checkCell_conserve (fuel : Nat) (s : GameState) (di dj : Int)
    (hd : IsUnitDelta di dj) (hz : InBoundsZero s.grid)
    (hk1 : countGrid s.grid .KEY ≤ 1) :
    ∀ i j : Int, ∀ prev : Cell,
      InBoundsZero (checkCellAndMoveObjects fuel s i j di dj prev).2.grid ∧
      ∀ o : GameObject, IsCarriedObj o →
        countGrid (checkCellAndMoveObjects fuel s i j di dj prev).2.grid o
          = countGrid s.grid o := by
  have hdz : ¬(di = 0 ∧ dj = 0) := by
    rcases hd with ⟨rfl, rfl⟩ | ⟨rfl, rfl⟩ | ⟨rfl, rfl⟩ | ⟨rfl, rfl⟩ <;> simp
  induction fuel with
  | zero => exact fun i j prev => ⟨hz, fun o _ => rfl⟩
  | succ fuel ih =>
    intro i j prev
    rw [checkCell_succ_eq]
    by_cases h1 : cellContainsGameObject (s.grid i j) .IMMOVABLE = true
    · rw [if_pos h1]
      exact ⟨hz, fun o _ => rfl⟩
    rw [if_neg h1]
    by_cases h2 : cellContainsGameObject (s.grid i j) .DOOR = true
    · rw [if_pos h2]
      split_ifs <;> exact ⟨hz, fun o _ => rfl⟩
    rw [if_neg h2]
    by_cases h3 : (!cellContainsMovableObject (s.grid i j) s.rockIsPushActive) = true
    · rw [if_pos h3]
      exact ⟨hz, fun o _ => rfl⟩
    rw [if_neg h3]
    by_cases h4 : willGoOutOfBounds i j di dj = true
    · rw [if_pos h4]
      exact ⟨hz, fun o _ => rfl⟩
    rw [if_neg h4]
    have hmov : cellContainsMovableObject (s.grid i j) s.rockIsPushActive = true := by
      revert h3
      cases cellContainsMovableObject (s.grid i j) s.rockIsPushActive <;> simp
    have hoob : willGoOutOfBounds i j di dj = false := Bool.eq_false_iff.mpr h4
    have hwij : InWindow i j := inWindow_of_movable hz hmov
    have hwn : InWindow (i + di) (j + dj) := window_step hwij hd hoob
    have hne : ¬(i + di = i ∧ j + dj = j) := by
      intro hc
      exact hdz ⟨by omega, by omega⟩
    rcases hr : checkCellAndMoveObjects fuel s (i + di) (j + dj) di dj (s.grid i j)
      with ⟨ok1, s1⟩
    have ih1 := ih (i + di) (j + dj) (s.grid i j)
    rw [hr] at ih1
    obtain ⟨ihz, ihc⟩ := ih1
    cases ok1
    · exact ⟨ihz, ihc⟩
    · simp only []
      have hback : s1.grid i j = s.grid i j := by
        have h := checkCell_offray fuel s (i + di) (j + dj) di dj (s.grid i j) i j
          (not_onRay_back hdz)
        rw [hr] at h
        exact h
      have hflag1 : s1.rockIsPushActive = s.rockIsPushActive := by
        have h := (checkCell_ctx fuel s (i + di) (j + dj) di dj (s.grid i j)).2.2.2.2
        rw [hr] at h
        exact h
      obtain ⟨-, -, -, -, mflag⟩ := moveAlwaysMovables_ctx s1 i j (i + di) (j + dj)
      by_cases hdoor : cellContainsGameObject (s.grid (i + di) (j + dj)) .DOOR = true
      · rcases checkCell_door_frame fuel s (i + di) (j + dj) di dj (s.grid i j) hdoor with
          hfr | ⟨hfr, hpk, hpm⟩
        · rw [hr] at hfr
          simp at hfr
        · rw [hr] at hfr
          simp only [Prod.mk.injEq, true_and] at hfr
          subst hfr
          obtain ⟨hbk, hbrt, hbit, hbpt, hbrock⟩ := movable_bits hpm
          have hrt : cellContainsGameObject (s1.grid i j) .ROCK_TEXT = false := by
            rwa [cellContainsGameObject_removeFromCell,
              beq_obj_of_ne (show GameObject.KEY ≠ .ROCK_TEXT by simp),
              Bool.not_false, Bool.and_true] at hbrt
          have hit : cellContainsGameObject (s1.grid i j) .IS_TEXT = false := by
            rwa [cellContainsGameObject_removeFromCell,
              beq_obj_of_ne (show GameObject.KEY ≠ .IS_TEXT by simp),
              Bool.not_false, Bool.and_true] at hbit
          have hpt : cellContainsGameObject (s1.grid i j) .PUSH_TEXT = false := by
            rwa [cellContainsGameObject_removeFromCell,
              beq_obj_of_ne (show GameObject.KEY ≠ .PUSH_TEXT by simp),
              Bool.not_false, Bool.and_true] at hbpt
          have hrock0 : s1.rockIsPushActive = true →
              cellContainsGameObject (s1.grid i j) .ROCK = false := by
            intro ha
            have h := hbrock ha
            rwa [cellContainsGameObject_removeFromCell,
              beq_obj_of_ne (show GameObject.KEY ≠ .ROCK by simp),
              Bool.not_false, Bool.and_true] at h
          have htgtKey : cellContainsGameObject (s1.grid (i + di) (j + dj)) .KEY
              = false := by
            rcases Bool.eq_false_or_eq_true
              (cellContainsGameObject (s1.grid (i + di) (j + dj)) .KEY) with hT | hF
            · have hge := countGrid_ge_two s1.grid .KEY i j (i + di) (j + dj) hwij hwn
                (fun hc => hne ⟨hc.1.symm, hc.2.symm⟩) hpk hT
              omega
            · exact hF
          have hguard : ((moveAlwaysMovables s1 i j (i + di) (j + dj)).rockIsPushActive
              && cellContainsGameObject (s1.grid i j) .ROCK) = false := by
            rw [mflag]
            cases hact : s1.rockIsPushActive
            · rfl
            · rw [hrock0 hact]
              rfl
          rw [hguard]
          simp only [Bool.false_eq_true, if_false]
          constructor
          · exact inBoundsZero_mam hz hwij hwn
          · intro o ho
            rcases ho with rfl | rfl | rfl | rfl | rfl
            · exact countGrid_mam_case s1 i j (i + di) (j + dj) .KEY (Or.inl rfl)
                hwij.1 hwij.2.1 hwij.2.2.1 hwij.2.2.2
                hwn.1 hwn.2.1 hwn.2.2.1 hwn.2.2.2 hne (Or.inl htgtKey)
            · exact countGrid_mam_case s1 i j (i + di) (j + dj) .ROCK_TEXT
                (Or.inr (Or.inl rfl))
                hwij.1 hwij.2.1 hwij.2.2.1 hwij.2.2.2
                hwn.1 hwn.2.1 hwn.2.2.1 hwn.2.2.2 hne (Or.inr hrt)
            · exact countGrid_mam_case s1 i j (i + di) (j + dj) .IS_TEXT
                (Or.inr (Or.inr (Or.inl rfl)))
                hwij.1 hwij.2.1 hwij.2.2.1 hwij.2.2.2
                hwn.1 hwn.2.1 hwn.2.2.1 hwn.2.2.2 hne (Or.inr hit)
            · exact countGrid_mam_case s1 i j (i + di) (j + dj) .PUSH_TEXT
                (Or.inr (Or.inr (Or.inr rfl)))
                hwij.1 hwij.2.1 hwij.2.2.1 hwij.2.2.2
                hwn.1 hwn.2.1 hwn.2.2.1 hwn.2.2.2 hne (Or.inr hpt)
            · exact countGrid_mam_ne s1 i j (i + di) (j + dj) .ROCK
                (by simp) (by simp) (by simp) (by simp)
      · have hndoor : cellContainsGameObject (s.grid (i + di) (j + dj)) .DOOR = false :=
          Bool.eq_false_iff.mpr hdoor
        have hok : (checkCellAndMoveObjects fuel s (i + di) (j + dj) di dj (s.grid i j)).1
            = true := by
          rw [hr]
        have hvac := checkCell_vacate fuel s (i + di) (j + dj) di dj (s.grid i j)
          hdz hok hndoor
        rw [hr] at hvac
        obtain ⟨hvm, hvr⟩ := hvac
        split_ifs with hg
        · have hg2 := hg
          rw [mflag, hflag1] at hg2
          simp only [Bool.and_eq_true] at hg2
          obtain ⟨hact, hrocksrc⟩ := hg2
          have hrsrc2 : cellContainsGameObject
              ((moveAlwaysMovables s1 i j (i + di) (j + dj)).grid i j) .ROCK = true := by
            rw [contains_moveAlwaysMovables_ne _ _ _ _ _ _
              (by simp) (by simp) (by simp) (by simp), hback]
            exact hrocksrc
          have hrtgt2 : cellContainsGameObject
              ((moveAlwaysMovables s1 i j (i + di) (j + dj)).grid (i + di) (j + dj)) .ROCK
              = false := by
            rw [contains_moveAlwaysMovables_ne _ _ _ _ _ _
              (by simp) (by simp) (by simp) (by simp)]
            exact hvr hact
          constructor
          · exact inBoundsZero_moveRock (inBoundsZero_mam ihz hwij hwn) hwij hwn
          · intro o ho
            rcases ho with rfl | rfl | rfl | rfl | rfl
            · rw [countGrid_moveRock_ne _ _ _ _ _ .KEY (by simp),
                countGrid_mam_case s1 i j (i + di) (j + dj) .KEY (Or.inl rfl)
                  hwij.1 hwij.2.1 hwij.2.2.1 hwij.2.2.2
                  hwn.1 hwn.2.1 hwn.2.2.1 hwn.2.2.2 hne
                  (Or.inl (hvm .KEY (Or.inl rfl)))]
              exact ihc .KEY (Or.inl rfl)
            · rw [countGrid_moveRock_ne _ _ _ _ _ .ROCK_TEXT (by simp),
                countGrid_mam_case s1 i j (i + di) (j + dj) .ROCK_TEXT
                  (Or.inr (Or.inl rfl))
                  hwij.1 hwij.2.1 hwij.2.2.1 hwij.2.2.2
                  hwn.1 hwn.2.1 hwn.2.2.1 hwn.2.2.2 hne
                  (Or.inl (hvm .ROCK_TEXT (Or.inr (Or.inl rfl))))]
              exact ihc .ROCK_TEXT (Or.inr (Or.inl rfl))
            · rw [countGrid_moveRock_ne _ _ _ _ _ .IS_TEXT (by simp),
                countGrid_mam_case s1 i j (i + di) (j + dj) .IS_TEXT
                  (Or.inr (Or.inr (Or.inl rfl)))
                  hwij.1 hwij.2.1 hwij.2.2.1 hwij.2.2.2
                  hwn.1 hwn.2.1 hwn.2.2.1 hwn.2.2.2 hne
                  (Or.inl (hvm .IS_TEXT (Or.inr (Or.inr (Or.inl rfl)))))]
              exact ihc .IS_TEXT (Or.inr (Or.inr (Or.inl rfl)))
            · rw [countGrid_moveRock_ne _ _ _ _ _ .PUSH_TEXT (by simp),
                countGrid_mam_case s1 i j (i + di) (j + dj) .PUSH_TEXT
                  (Or.inr (Or.inr (Or.inr rfl)))
                  hwij.1 hwij.2.1 hwij.2.2.1 hwij.2.2.2
                  hwn.1 hwn.2.1 hwn.2.2.1 hwn.2.2.2 hne
                  (Or.inl (hvm .PUSH_TEXT (Or.inr (Or.inr (Or.inr rfl)))))]
              exact ihc .PUSH_TEXT (Or.inr (Or.inr (Or.inr (Or.inl rfl))))
            · rw [countGrid_moveRock_self (moveAlwaysMovables s1 i j (i + di) (j + dj))
                  i j (i + di) (j + dj)
                  hwij.1 hwij.2.1 hwij.2.2.1 hwij.2.2.2
                  hwn.1 hwn.2.1 hwn.2.2.1 hwn.2.2.2 hne hrsrc2 hrtgt2,
                countGrid_mam_ne _ _ _ _ _ .ROCK (by simp) (by simp) (by simp) (by simp)]
              exact ihc .ROCK (Or.inr (Or.inr (Or.inr (Or.inr rfl))))
        · constructor
          · exact inBoundsZero_mam ihz hwij hwn
          · intro o ho
            rcases ho with rfl | rfl | rfl | rfl | rfl
            · rw [countGrid_mam_case s1 i j (i + di) (j + dj) .KEY (Or.inl rfl)
                  hwij.1 hwij.2.1 hwij.2.2.1 hwij.2.2.2
                  hwn.1 hwn.2.1 hwn.2.2.1 hwn.2.2.2 hne
                  (Or.inl (hvm .KEY (Or.inl rfl)))]
              exact ihc .KEY (Or.inl rfl)
            · rw [countGrid_mam_case s1 i j (i + di) (j + dj) .ROCK_TEXT
                  (Or.inr (Or.inl rfl))
                  hwij.1 hwij.2.1 hwij.2.2.1 hwij.2.2.2
                  hwn.1 hwn.2.1 hwn.2.2.1 hwn.2.2.2 hne
                  (Or.inl (hvm .ROCK_TEXT (Or.inr (Or.inl rfl))))]
              exact ihc .ROCK_TEXT (Or.inr (Or.inl rfl))
            · rw [countGrid_mam_case s1 i j (i + di) (j + dj) .IS_TEXT
                  (Or.inr (Or.inr (Or.inl rfl)))
                  hwij.1 hwij.2.1 hwij.2.2.1 hwij.2.2.2
                  hwn.1 hwn.2.1 hwn.2.2.1 hwn.2.2.2 hne
                  (Or.inl (hvm .IS_TEXT (Or.inr (Or.inr (Or.inl rfl)))))]
              exact ihc .IS_TEXT (Or.inr (Or.inr (Or.inl rfl)))
            · rw [countGrid_mam_case s1 i j (i + di) (j + dj) .PUSH_TEXT
                  (Or.inr (Or.inr (Or.inr rfl)))
                  hwij.1 hwij.2.1 hwij.2.2.1 hwij.2.2.2
                  hwn.1 hwn.2.1 hwn.2.2.1 hwn.2.2.2 hne
                  (Or.inl (hvm .PUSH_TEXT (Or.inr (Or.inr (Or.inr rfl)))))]
              exact ihc .PUSH_TEXT (Or.inr (Or.inr (Or.inr (Or.inl rfl))))
            · rw [countGrid_mam_ne _ _ _ _ _ .ROCK (by simp) (by simp) (by simp) (by simp)]
              exact ihc .ROCK (Or.inr (Or.inr (Or.inr (Or.inr rfl))))

lemma moveBaba_conserve (s : GameState) (b : Coordinate) (d : Direction)
    (hz : InBoundsZero s.grid) (hk1 : countGrid s.grid .KEY ≤ 1) :
    InBoundsZero (moveBaba s b d).1.grid ∧
    ∀ o : GameObject, IsCarriedObj o →
      countGrid (moveBaba s b d).1.grid o = countGrid s.grid o := by
  rcases moveBaba_cases s b d with h | ⟨di, dj, hu, h⟩
  · rw [h]
    exact ⟨hz, fun o _ => rfl⟩
  · rw [h]
    have hc := checkCell_conserve CHAIN_FUEL s di dj hu hz hk1 (b.i + di) (b.j + dj) 0
    split_ifs <;> exact hc

lemma applyMove_conserve (s : GameState) (d : Direction)
    (hz : InBoundsZero s.grid) (hk1 : countGrid s.grid .KEY ≤ 1) :
    InBoundsZero (applyMove s d).grid ∧
    ∀ o : GameObject, IsCarriedObj o →
      countGrid (applyMove s d).grid o = countGrid s.grid o := by
  have hg1 : (applyMoveMid1 s d).grid = (moveBaba s s.baba1 d).1.grid := rfl
  obtain ⟨hz1, hc1⟩ := moveBaba_conserve s s.baba1 d hz hk1
  have hz1' : InBoundsZero (applyMoveMid1 s d).grid := by
    rw [hg1]
    exact hz1
  have hk1' : countGrid (applyMoveMid1 s d).grid .KEY ≤ 1 := by
    rw [hg1, hc1 .KEY (Or.inl rfl)]
    exact hk1
  obtain ⟨hz2, hc2⟩ :=
    moveBaba_conserve (applyMoveMid1 s d) (applyMoveMid1 s d).baba2 d hz1' hk1'
  have hg2 : (applyMoveMid2 s d).grid
      = (moveBaba (applyMoveMid1 s d) (applyMoveMid1 s d).baba2 d).1.grid := rfl
  rw [applyMove_grid, hg2]
  refine ⟨hz2, fun o ho => ?_⟩
  rw [hc2 o ho, hg1, hc1 o ho]

/-- C2 (amended).  `ApplyMove` keeps every non-carried object (Baba marker,
wall, tile, door) in exactly the cells it occupied before; and on a state
whose content lies inside the 18×18 window and which holds at most one key,
the resulting content also lies inside the window and the count of each
carried object kind (key, rock, rock-text, is-text, push-text) is exactly
preserved.  The at-most-one-key proviso is necessary: the original claim is
refuted by the key-merge counterexample below. -/
theorem applyMove_conservation (s : GameState) (d : Direction)
    (hz : InBoundsZero s.grid) (hk1 : countGrid s.grid .KEY ≤ 1) :
    (∀ a b : Int, ∀ m : GameObject, ¬IsCarriedObj m →
      cellContainsGameObject ((applyMove s d).grid a b) m
        = cellContainsGameObject (s.grid a b) m) ∧
    InBoundsZero (applyMove s d).grid ∧
    (∀ o : GameObject, IsCarriedObj o →
      countGrid (applyMove s d).grid o = countGrid s.grid o) := by
  obtain ⟨hz', hc⟩ := applyMove_conserve s d hz hk1
  exact ⟨fun a b m hm => applyMove_fixed s d m hm a b, hz', hc⟩

/-- A state with a key at `(1, 2)` and a door-plus-key cell at `(1, 3)`
(cell `48 = DOOR ∣ KEY`); Baba #1 stands at `(1, 1)`, Baba #2 is dead. -/
def keyMergeGrid : Grid := fun a b =>
  if a = 1 ∧ b = 2 then 32
  else if a = 1 ∧ b = 3 then 48
  else 0

def keyMergeState : GameState :=
  { grid := keyMergeGrid, baba1 := ⟨1, 1⟩, baba2 := ⟨-1, -1⟩, turn := 0, moves := [],
    key := ⟨1, 2⟩, isText := ⟨0, 0⟩, rockIsPushActive := false }

/-- C2, counterexample to the original claim: moving right pushes the free
key into the door cell that already holds a key; the two key bits merge and
the key count drops from 2 to 1, so `ApplyMove` does not preserve the count
of every movable object kind on every state. -/
theorem applyMove_key_count_drop :
    countGrid keyMergeState.grid .KEY = 2 ∧
    countGrid (applyMove keyMergeState .RIGHT).grid .KEY = 1 := by
  constructor
  · decide
  · decide

/-- A state with a single key at `(1, 2)` and nothing else on the grid. -/
def loneKeyGrid : Grid := fun a b => if a = 1 ∧ b = 2 then 32 else 0

def loneKeyState : GameState :=
  { grid := loneKeyGrid, baba1 := ⟨1, 1⟩, baba2 := ⟨-1, -1⟩, turn := 0, moves := [],
    key := ⟨1, 2⟩, isText := ⟨0, 0⟩, rockIsPushActive := false }

theorem applyMove_conservation_witness :
    InBoundsZero loneKeyState.grid ∧ countGrid loneKeyState.grid .KEY ≤ 1 ∧
    countGrid (applyMove loneKeyState .RIGHT).grid .KEY
      = countGrid loneKeyState.grid .KEY := by
  have hz : InBoundsZero loneKeyState.grid := by
    intro a b hab
    show (if a = 1 ∧ b = 2 then 32 else 0) = 0
    rw [if_neg]
    rintro ⟨rfl, rfl⟩
    exact hab ⟨by norm_num, by norm_num, by norm_num, by norm_num⟩
  have hk : countGrid loneKeyState.grid .KEY ≤ 1 := by decide
  exact ⟨hz, hk,
    (applyMove_conservation loneKeyState .RIGHT hz hk).2.2 .KEY (Or.inl rfl)⟩

/-! ### C10: the memo table's hash and equality functors -/

/-- Conversion of an `int8_t` coordinate to the `uint8_t` parameter of
`CombineUInt8s` (C++ integral conversion: reduction modulo 256). -/
def toUInt8 (x : Int) : Nat := (x % 256).toNat

/-- `CombineUInt8s`. -/
def combineUInt8s (n1 n2 : Nat) : Nat := (n1 <<< 8) ||| n2

/-- `CombineUInt16s`. -/
def combineUInt16s (n1 n2 : Nat) : Nat := (n1 <<< 16) ||| n2

/-- `ApplyHash`: the Stack-Overflow mixer on a `uint32_t` folded into a
64-bit `std::size_t` accumulator. -/
def applyHash (to_apply current_hash : Nat) : Nat :=
  let t0 := to_apply % 2 ^ 32
  let t1 := (((t0 >>> 16) ^^^ t0) * 0x45d9f3b) % 2 ^ 32
  let t2 := (((t1 >>> 16) ^^^ t1) * 0x45d9f3b) % 2 ^ 32
  let t3 := (t2 >>> 16) ^^^ t2
  (current_hash ^^^
    ((t3 + 0x9e3779b9 + ((current_hash <<< 6) % 2 ^ 64) + (current_hash >>> 2)) % 2 ^ 64))
    % 2 ^ 64

/-- `GameStateHash::operator()`: mix the four Baba coordinate bytes, times
37, then fold `ApplyHash` over the grid cells in row-major order. -/
def gameStateHash (s : GameState) : Nat :=
  let h0 := (combineUInt16s
    (combineUInt8s (toUInt8 s.baba1.i) (toUInt8 s.baba1.j))
    (combineUInt8s (toUInt8 s.baba2.i) (toUInt8 s.baba2.j)) * 37) % 2 ^ 64
  (List.range 18).foldl
    (fun h i => (List.range 18).foldl
      (fun h2 j => applyHash (s.grid (i : Int) (j : Int)) h2) h) h0

/-- `GameStateEqual::operator()`: both Baba coordinates and all `18 × 18`
grid cells agree; the turn counter and the move history are not compared. -/
def gameStateEqual (s t : GameState) : Bool :=
  s.baba1.i == t.baba1.i && s.baba1.j == t.baba1.j &&
  s.baba2.i == t.baba2.i && s.baba2.j == t.baba2.j &&
  ((List.range 18).all fun i => (List.range 18).all fun j =>
    s.grid (i : Int) (j : Int) == t.grid (i : Int) (j : Int))

lemma range_foldl_congr (n : Nat) (f g : Nat → Nat → Nat)
    (h : ∀ i, i < n → ∀ acc : Nat, f acc i = g acc i) (a : Nat) :
    (List.range n).foldl f a = (List.range n).foldl g a := by
  induction n generalizing a with
  | zero => rfl
  | succ n ihn =>
    rw [List.range_succ, List.foldl_append, List.foldl_append]
    simp only [List.foldl_cons, List.foldl_nil]
    rw [ihn (fun i hi acc => h i (by omega) acc) a]
    exact h n (by omega) _

/-- C10.  `GameStateHash` reads only the fields `GameStateEqual` compares:
states equal under `GameStateEqual` (same Babas, identical grid cells; turn
and history ignored) receive the same hash, so the memo table keyed by this
equality is well-defined. -/
theorem gameStateEqual_hash (s t : GameState) (h : gameStateEqual s t = true) :
    gameStateHash s = gameStateHash t := by
  unfold gameStateEqual at h
  simp only [Bool.and_eq_true, List.all_eq_true, List.mem_range, beq_iff_eq] at h
  obtain ⟨⟨⟨⟨h1i, h1j⟩, h2i⟩, h2j⟩, hg⟩ := h
  unfold gameStateHash
  rw [h1i, h1j, h2i, h2j]
  exact range_foldl_congr 18
    (fun h i => (List.range 18).foldl
      (fun h2 j => applyHash (s.grid (i : Int) (j : Int)) h2) h)
    (fun h i => (List.range 18).foldl
      (fun h2 j => applyHash (t.grid (i : Int) (j : Int)) h2) h)
    (fun i hi acc => range_foldl_congr 18
      (fun h2 j => applyHash (s.grid (i : Int) (j : Int)) h2)
      (fun h2 j => applyHash (t.grid (i : Int) (j : Int)) h2)
      (fun j hj acc2 => by
        show applyHash (s.grid (i : Int) (j : Int)) acc2
          = applyHash (t.grid (i : Int) (j : Int)) acc2
        rw [hg i hi j hj]) acc) _

/-- A rock at `(2, 3)`, Babas at `(4, 5)` and `(6, 7)`. -/
def hashProbeGrid : Grid := fun a b => if a = 2 ∧ b = 3 then 8 else 0

def hashProbeA : GameState :=
  { grid := hashProbeGrid, baba1 := ⟨4, 5⟩, baba2 := ⟨6, 7⟩, turn := 0, moves := [],
    key := ⟨-1, -1⟩, isText := ⟨0, 0⟩, rockIsPushActive := false }

/-- The same Babas and grid as `hashProbeA` but a different turn counter,
move history and rule flag — ignored by both functors. -/
def hashProbeB : GameState :=
  { grid := hashProbeGrid, baba1 := ⟨4, 5⟩, baba2 := ⟨6, 7⟩, turn := 9, moves := [.UP],
    key := ⟨-1, -1⟩, isText := ⟨0, 0⟩, rockIsPushActive := true }

theorem gameStateEqual_hash_witness :
    gameStateEqual hashProbeA hashProbeB = true ∧
    gameStateHash hashProbeA = gameStateHash hashProbeB :=
  ⟨by decide, gameStateEqual_hash hashProbeA hashProbeB (by decide)⟩

/-! ### C9: constructor validation of the level layout -/

/-- The constructor's scan for the cached coordinate of `o`: row-major
last occurrence, `⟨-1, -1⟩` when absent.  (The C++ constructor tracks the
key and the is-text coordinates in one traversal; the two trackers are
independent, so one scan per object is the same computation.) -/
def scanCoord (g : Grid) (o : GameObject) : Coordinate :=
  (List.range 18).foldl (fun c (i : Nat) => (List.range 18).foldl
    (fun c2 (j : Nat) => if cellContainsGameObject (g (i : Int) (j : Int)) o
      then ⟨(i : Int), (j : Int)⟩ else c2) c) ⟨-1, -1⟩

/-- Some cell of the `18 × 18` window contains `o`. -/
def hasObj (g : Grid) (o : GameObject) : Bool :=
  (List.range 18).any fun (i : Nat) => (List.range 18).any fun (j : Nat) =>
    cellContainsGameObject (g (i : Int) (j : Int)) o

/-- `GameState::GameState(grid, baba1, baba2)`: scan the layout for the
cached key / is-text coordinates, abort (`none`) if the key or the is-text
token is absent or the door is not at its fixed cell, then recalculate the
derived state.  The C++ `std::abort()` is embedded as `none`. -/
def mkGameState (grid : Grid) (baba1 baba2 : Coordinate) : Option GameState :=
  let key := scanCoord grid .KEY
  let isText := scanCoord grid .IS_TEXT
  if key.i = -1 ∨ isText.i = -1 ∨
      cellContainsGameObject (grid DOOR_I DOOR_J) .DOOR = false then none
  else some (recalculateState
    { grid := grid, baba1 := baba1, baba2 := baba2, turn := 0, moves := [],
      key := key, isText := isText, rockIsPushActive := false })

lemma scan_inner (g : Grid) (o : GameObject) (iv : Int) (hiv : iv ≠ -1)
    (l : List Nat) (c : Coordinate) :
    (l.foldl (fun c2 (j : Nat) => if cellContainsGameObject (g iv (j : Int)) o
        then ⟨iv, (j : Int)⟩ else c2) c).i = -1
      ↔ (c.i = -1 ∧ ∀ j ∈ l, cellContainsGameObject (g iv (j : Int)) o = false) := by
  induction l generalizing c with
  | nil => simp
  | cons x xs ihl =>
    simp only [List.foldl_cons, List.mem_cons]
    by_cases hx : cellContainsGameObject (g iv (x : Int)) o = true
    · rw [if_pos hx, ihl]
      constructor
      · rintro ⟨hci, -⟩
        exact absurd hci hiv
      · rintro ⟨-, hall⟩
        have := hall x (Or.inl rfl)
        rw [hx] at this
        exact absurd this (by simp)
    · have hx' : cellContainsGameObject (g iv (x : Int)) o = false :=
        Bool.eq_false_iff.mpr hx
      rw [if_neg hx, ihl]
      constructor
      · rintro ⟨h1, h2⟩
        exact ⟨h1, fun j hj => hj.elim (fun he => he ▸ hx') (h2 j)⟩
      · rintro ⟨h1, h2⟩
        exact ⟨h1, fun j hj => h2 j (Or.inr hj)⟩

lemma scan_outer (g : Grid) (o : GameObject) (l : List Nat) (c : Coordinate) :
    ((l.foldl (fun ca (i : Nat) => (List.range 18).foldl
        (fun c2 (j : Nat) => if cellContainsGameObject (g (i : Int) (j : Int)) o
          then ⟨(i : Int), (j : Int)⟩ else c2) ca) c).i = -1)
      ↔ (c.i = -1 ∧ ∀ i ∈ l, ∀ j ∈ List.range 18,
          cellContainsGameObject (g (i : Int) (j : Int)) o = false) := by
  induction l generalizing c with
  | nil => simp
  | cons x xs ihl =>
    simp only [List.foldl_cons, List.mem_cons]
    rw [ihl]
    have hxne : ((x : Nat) : Int) ≠ -1 := by
      have := Int.natCast_nonneg x
      omega
    constructor
    · rintro ⟨hinner, hrest⟩
      rw [scan_inner g o (x : Int) hxne (List.range 18) c] at hinner
      obtain ⟨hc, hx⟩ := hinner
      exact ⟨hc, fun i hi => hi.elim (fun he => he ▸ hx) (hrest i)⟩
    · rintro ⟨hc, hall⟩
      refine ⟨?_, fun i hi => hall i (Or.inr hi)⟩
      rw [scan_inner g o (x : Int) hxne (List.range 18) c]
      exact ⟨hc, hall x (Or.inl rfl)⟩

lemma scanCoord_eq_neg_one (g : Grid) (o : GameObject) :
    (scanCoord g o).i = -1 ↔ hasObj g o = false := by
  unfold scanCoord hasObj
  rw [scan_outer]
  constructor
  · rintro ⟨-, h⟩
    rw [List.any_eq_false]
    intro i hi
    rw [Bool.not_eq_true, List.any_eq_false]
    intro j hj
    rw [Bool.not_eq_true]
    exact h i hi j hj
  · intro h
    refine ⟨rfl, fun i hi j hj => ?_⟩
    rw [List.any_eq_false] at h
    have h2 := h i hi
    rw [Bool.not_eq_true, List.any_eq_false] at h2
    have h3 := h2 j hj
    rw [Bool.not_eq_true] at h3
    exact h3

/-- C9 (amended).  Construction succeeds exactly when the layout contains
the key, the is-text token, and the door at its fixed cell `(12, 4)`; the
rule-subject ("rock") text token is NOT checked by the constructor. -/
theorem mkGameState_validation (grid : Grid) (b1 b2 : Coordinate) :
    (mkGameState grid b1 b2).isSome
      = (hasObj grid .KEY && hasObj grid .IS_TEXT
        && cellContainsGameObject (grid DOOR_I DOOR_J) .DOOR) := by
  have hDef : mkGameState grid b1 b2
      = if (scanCoord grid .KEY).i = -1 ∨ (scanCoord grid .IS_TEXT).i = -1 ∨
          cellContainsGameObject (grid DOOR_I DOOR_J) .DOOR = false then none
        else some (recalculateState
          { grid := grid, baba1 := b1, baba2 := b2, turn := 0, moves := [],
            key := scanCoord grid .KEY, isText := scanCoord grid .IS_TEXT,
            rockIsPushActive := false }) := rfl
  rw [hDef]
  split_ifs with h
  · rcases h with hk | hi | hd
    · rw [(scanCoord_eq_neg_one grid .KEY).mp hk]
      rfl
    · rw [(scanCoord_eq_neg_one grid .IS_TEXT).mp hi]
      simp
    · rw [hd]
      simp
  · push_neg at h
    obtain ⟨hk, hi, hd⟩ := h
    have hk' : hasObj grid .KEY = true := by
      rcases Bool.eq_false_or_eq_true (hasObj grid .KEY) with hT | hF
      · exact hT
      · exact absurd ((scanCoord_eq_neg_one grid .KEY).mpr hF) hk
    have hi' : hasObj grid .IS_TEXT = true := by
      rcases Bool.eq_false_or_eq_true (hasObj grid .IS_TEXT) with hT | hF
      · exact hT
      · exact absurd ((scanCoord_eq_neg_one grid .IS_TEXT).mpr hF) hi
    have hd' : cellContainsGameObject (grid DOOR_I DOOR_J) .DOOR = true := by
      rcases Bool.eq_false_or_eq_true
        (cellContainsGameObject (grid DOOR_I DOOR_J) .DOOR) with hT | hF
      · exact hT
      · exact absurd hF hd
    rw [hk', hi', hd']
    rfl

/-- A layout with the key at `(1, 2)`, the is-text token at `(3, 4)` and
the door at `(12, 4)`, but no rock-text token anywhere. -/
def rockTextFreeGrid : Grid := fun a b =>
  if a = 12 ∧ b = 4 then 16
  else if a = 1 ∧ b = 2 then 32
  else if a = 3 ∧ b = 4 then 128
  else 0

set_option maxRecDepth 4000 in
/-- C9, counterexample to the original claim: a layout missing the
rule-subject ("rock") text token is not rejected — construction succeeds
even though the grid holds no rock-text token at all (the constructor
checks the is-text token, not the rule-subject token). -/
theorem constructor_accepts_missing_rock_text :
    (mkGameState rockTextFreeGrid ⟨0, 0⟩ ⟨1, 1⟩).isSome = true ∧
    countGrid rockTextFreeGrid .ROCK_TEXT = 0 := by
  constructor
  · decide
  · decide

/-! ### C8: the unwinnable-state sentinel score -/

/-- `CheckIfTextCanBeAlignedWithRocks`. -/
def checkIfTextCanBeAlignedWithRocks (s : GameState) (rock_row : Int) : Bool :=
  if s.isText.i ≠ rock_row ∧ s.isText.j ≥ 15 then false
  else if s.isText.j ≥ 15 ∧ s.rockIsPushActive then false
  else (List.range 5).all fun (di : Nat) =>
    let i : Int := 3 + (di : Int)
    if i = rock_row then true
    else (List.range 3).all fun (dj : Nat) =>
      let j : Int := 15 + (dj : Int)
      !(cellContainsGameObject (s.grid i j) .ROCK_TEXT ||
        cellContainsGameObject (s.grid i j) .PUSH_TEXT)

/-- One early-return-false region scan of `CheckIfPossibleToWin`: no
rock-text or push-text token in the `ni × nj` rectangle at `(i0, j0)`. -/
def noTextIn (s : GameState) (i0 : Int) (ni : Nat) (j0 : Int) (nj : Nat) : Bool :=
  (List.range ni).all fun (a : Nat) => (List.range nj).all fun (b : Nat) =>
    !(cellContainsGameObject (s.grid (i0 + (a : Int)) (j0 + (b : Int))) .ROCK_TEXT ||
      cellContainsGameObject (s.grid (i0 + (a : Int)) (j0 + (b : Int))) .PUSH_TEXT)

/-- `CheckIfPossibleToWin`. -/
def checkIfPossibleToWin (s : GameState) : Bool :=
  if !allBabasAlive s then false
  else if s.isText.i ≤ 2 ∨ s.isText.i ≥ 8 ∨ s.isText.j ≤ 9 then false
  else noTextIn s 0 3 10 8 && noTextIn s 8 3 10 8 && noTextIn s 3 5 7 3

/-- One row of the first-milestone loop of `CalculateScore`: count the
rocks in columns 7–9 of row `3 + di`, add the per-row bonus to the running
score and record the row when all three rocks are there. -/
def rockCountRow (s : GameState) (di : Nat) : Nat :=
  (List.range 3).countP fun (dj : Nat) =>
    cellContainsGameObject (s.grid (3 + (di : Int)) (7 + (dj : Int))) .ROCK

def rockRowStep (s : GameState) (p : Int × Int) (di : Nat) : Int × Int :=
  if rockCountRow s di = 1 then (p.1 + 100, p.2)
  else if rockCountRow s di = 2 then (p.1 + 1000, p.2)
  else if rockCountRow s di = 3 then (p.1 + 10000, 3 + (di : Int))
  else p

/-- The first-milestone loop: running score and the recorded `rock_row`
(`-1` when no row holds all three rocks). -/
def milestone1 (s : GameState) : Int × Int :=
  (List.range 5).foldl (rockRowStep s) (0, -1)

/-- `text_aligned_count` of the second milestone. -/
def textAlignedCount (s : GameState) (rock_row : Int) : Int :=
  (if s.isText.i = rock_row then 1 else 0) +
  (((List.range 8).countP fun (dj : Nat) =>
    cellContainsGameObject (s.grid rock_row (10 + (dj : Int))) .ROCK_TEXT ||
    cellContainsGameObject (s.grid rock_row (10 + (dj : Int))) .PUSH_TEXT) : Nat)

/-- The second-milestone bonus. -/
def milestone2Score (s : GameState) (rock_row : Int) : Int :=
  if textAlignedCount s rock_row = 1 then 1000
  else if textAlignedCount s rock_row = 2 then 10000
  else if textAlignedCount s rock_row = 3 then
    (if s.rockIsPushActive then 100000 else 1000000)
  else 0

/-- `CalculateScore`: the unwinnable sentinel, the milestone bonuses, the
`-1` early return when the recorded rock row can no longer be aligned with
the text tokens, and the key-to-door distance tie breaker. -/
def calculateScore (s : GameState) : Int :=
  if checkIfPossibleToWin s = false then -1000000
  else
    let m1 := milestone1 s
    if m1.2 ≠ -1 ∧ checkIfTextCanBeAlignedWithRocks s m1.2 = false then -1
    else
      m1.1 + (if m1.2 ≠ -1 then milestone2Score s m1.2 else 0)
        + (if babasOnSameSpace s then 10000000 else 0)
        + (100 - (|s.key.i - DOOR_I| + |s.key.j - DOOR_J|))

lemma rockRowStep_mono (s : GameState) (p : Int × Int) (di : Nat) :
    p.1 ≤ (rockRowStep s p di).1 := by
  unfold rockRowStep
  split_ifs
  · show p.1 ≤ p.1 + 100
    omega
  · show p.1 ≤ p.1 + 1000
    omega
  · show p.1 ≤ p.1 + 10000
    omega
  · exact le_refl _

lemma foldl_rockRowStep_fst (s : GameState) (l : List Nat) (p : Int × Int) :
    p.1 ≤ (l.foldl (rockRowStep s) p).1 := by
  induction l generalizing p with
  | nil => exact le_refl _
  | cons x xs ihl => exact le_trans (rockRowStep_mono s p x) (ihl _)

/-- C8.  An unwinnable state scores the sentinel `-1 000 000`, strictly
below the score of every winnable state whose cached key coordinate fits
in the `int8_t` field range — even a winnable state with no milestone
(the worst non-sentinel scores are the `-1` alignment dead end and the
milestone-free `100 − distance ≥ −172`). -/
theorem calculateScore_sentinel (s t : GameState)
    (hs : checkIfPossibleToWin s = false)
    (ht : checkIfPossibleToWin t = true)
    (hki1 : -128 ≤ t.key.i) (hki2 : t.key.i ≤ 127)
    (hkj1 : -128 ≤ t.key.j) (hkj2 : t.key.j ≤ 127) :
    calculateScore s = -1000000 ∧ calculateScore s < calculateScore t := by
  have h1 : calculateScore s = -1000000 := by
    unfold calculateScore
    rw [hs]
    rfl
  refine ⟨h1, ?_⟩
  rw [h1]
  have h2 : calculateScore t =
      (if (milestone1 t).2 ≠ -1 ∧
          checkIfTextCanBeAlignedWithRocks t (milestone1 t).2 = false then -1
       else (milestone1 t).1
        + (if (milestone1 t).2 ≠ -1 then milestone2Score t (milestone1 t).2 else 0)
        + (if babasOnSameSpace t then 10000000 else 0)
        + (100 - (|t.key.i - DOOR_I| + |t.key.j - DOOR_J|))) := by
    unfold calculateScore
    rw [ht]
    rfl
  rw [h2]
  by_cases he : ((milestone1 t).2 ≠ -1 ∧
      checkIfTextCanBeAlignedWithRocks t (milestone1 t).2 = false)
  · rw [if_pos he]
    norm_num
  · rw [if_neg he]
    have hm1 : (0 : Int) ≤ (milestone1 t).1 :=
      foldl_rockRowStep_fst t (List.range 5) (0, -1)
    have hs2 : (0 : Int)
        ≤ (if (milestone1 t).2 ≠ -1 then milestone2Score t (milestone1 t).2 else 0) := by
      by_cases hr : (milestone1 t).2 ≠ -1
      · rw [if_pos hr]
        unfold milestone2Score
        split_ifs <;> norm_num
      · rw [if_neg hr]
    have hs3 : (0 : Int) ≤ (if babasOnSameSpace t then 10000000 else 0) := by
      by_cases hb : babasOnSameSpace t = true
      · rw [if_pos hb]
        norm_num
      · rw [if_neg hb]
    have hDI : DOOR_I = 12 := rfl
    have hDJ : DOOR_J = 4 := rfl
    have hd1 : |t.key.i - DOOR_I| ≤ 140 := by
      rw [hDI]
      exact abs_le.mpr ⟨by omega, by omega⟩
    have hd2 : |t.key.j - DOOR_J| ≤ 132 := by
      rw [hDJ]
      exact abs_le.mpr ⟨by omega, by omega⟩
    linarith [hm1, hs2, hs3, hd1, hd2]

/-- An unwinnable probe: Baba #1 is dead. -/
def c8LoseState : GameState :=
  { grid := fun _ _ => 0, baba1 := ⟨-1, -1⟩, baba2 := ⟨0, 0⟩, turn := 0, moves := [],
    key := ⟨0, 0⟩, isText := ⟨5, 12⟩, rockIsPushActive := false }

/-- A winnable probe with no milestone reached: both Babas alive, the
is-text token on the upper-right platform, an empty grid. -/
def c8WinState : GameState :=
  { grid := fun _ _ => 0, baba1 := ⟨0, 0⟩, baba2 := ⟨1, 1⟩, turn := 0, moves := [],
    key := ⟨1, 2⟩, isText := ⟨5, 12⟩, rockIsPushActive := false }

theorem calculateScore_sentinel_witness :
    checkIfPossibleToWin c8LoseState = false ∧
    checkIfPossibleToWin c8WinState = true ∧
    calculateScore c8LoseState = -1000000 ∧
    calculateScore c8LoseState < calculateScore c8WinState := by
  have h := calculateScore_sentinel c8LoseState c8WinState (by decide) (by decide)
    (by decide) (by decide) (by decide) (by decide)
  exact ⟨by decide, by decide, h.1, h.2⟩

/-! ### C7: the search's memo table -/

/-- Lookup in the memo table (an `unordered_map` keyed by `GameStateEqual`,
embedded as an association list): the recorded turn of the first entry
equal to `s`. -/
def cacheFind (cache : List (GameState × Nat)) (s : GameState) : Option Nat :=
  match cache.find? (fun e => gameStateEqual e.1 s) with
  | none => none
  | some e => some e.2

/-- `iter->second = new_state->_turn`: overwrite the recorded turn of the
entries equal to `s`. -/
def cacheSet (cache : List (GameState × Nat)) (s : GameState) (v : Nat) :
    List (GameState × Nat) :=
  cache.map (fun e => if gameStateEqual e.1 s then (e.1, v) else e)

/-- The memoization step of `SolveOneIteration` on a freshly computed child
state: within the cache-depth ceiling, insert if absent; on a present entry
with recorded turn ≤ the child's turn, prune (cache hit); on a present
entry with a larger recorded turn, lower the recorded turn and do not
prune.  Returns (prune?, updated cache). -/
def memoProcess (maxCacheDepth : Nat) (cache : List (GameState × Nat))
    (s : GameState) : Bool × List (GameState × Nat) :=
  if s.turn ≤ maxCacheDepth then
    match cacheFind cache s with
    | none => (false, (s, s.turn) :: cache)
    | some recorded =>
      if s.turn ≥ recorded then (true, cache)
      else (false, cacheSet cache s s.turn)
  else (false, cache)

/-- C7.  Record a state `s` (absent from the cache) at turn `s.turn`; a
later encounter of an equal state `s'` at turn `≥ s.turn` is a cache hit
that prunes and leaves the cache unchanged, while an encounter at a
shallower turn `< s.turn` does not prune and lowers the recorded turn to
`s'.turn` — both turns within the cache-depth ceiling. -/
theorem memo_hit_or_update (D : Nat) (cache : List (GameState × Nat))
    (s s' : GameState)
    (h0 : cacheFind cache s = none)
    (hT : s.turn ≤ D) (hT' : s'.turn ≤ D)
    (heq : gameStateEqual s s' = true) :
    (memoProcess D cache s).1 = false ∧
    cacheFind (memoProcess D cache s).2 s' = some s.turn ∧
    (s.turn ≤ s'.turn →
      memoProcess D (memoProcess D cache s).2 s' = (true, (memoProcess D cache s).2)) ∧
    (s'.turn < s.turn →
      (memoProcess D (memoProcess D cache s).2 s').1 = false ∧
      cacheFind (memoProcess D (memoProcess D cache s).2 s').2 s' = some s'.turn) := by
  have hstep : memoProcess D cache s = (false, (s, s.turn) :: cache) := by
    unfold memoProcess
    rw [if_pos hT, h0]
  rw [hstep]
  have hfind : cacheFind ((s, s.turn) :: cache) s' = some s.turn := by
    unfold cacheFind
    simp only [List.find?]
    rw [heq]
  refine ⟨rfl, hfind, ?_, ?_⟩
  · intro hge
    show memoProcess D ((s, s.turn) :: cache) s' = (true, (s, s.turn) :: cache)
    unfold memoProcess
    rw [if_pos hT', hfind]
    simp only []
    rw [if_pos (show s'.turn ≥ s.turn from hge)]
  · intro hlt
    have hstep2 : memoProcess D ((s, s.turn) :: cache) s'
        = (false, cacheSet ((s, s.turn) :: cache) s' s'.turn) := by
      unfold memoProcess
      rw [if_pos hT', hfind]
      simp only []
      rw [if_neg (show ¬s'.turn ≥ s.turn by omega)]
    refine ⟨?_, ?_⟩
    · show (memoProcess D ((s, s.turn) :: cache) s').1 = false
      rw [hstep2]
    · show cacheFind (memoProcess D ((s, s.turn) :: cache) s').2 s' = some s'.turn
      rw [hstep2]
      show cacheFind
        ((if gameStateEqual (s, s.turn).1 s' then ((s, s.turn).1, s'.turn) else (s, s.turn))
          :: List.map (fun e => if gameStateEqual e.1 s' then (e.1, s'.turn) else e) cache)
        s' = some s'.turn
      rw [if_pos (show gameStateEqual (s, s.turn).1 s' = true from heq)]
      unfold cacheFind
      simp only [List.find?]
      rw [show gameStateEqual ((s, s.turn).1, s'.turn).1 s' = gameStateEqual s s' from rfl,
        heq]

/-- Two states equal under `GameStateEqual` encountered at turns 4 and 2. -/
def memoProbeA : GameState :=
  { grid := fun _ _ => 0, baba1 := ⟨2, 2⟩, baba2 := ⟨3, 3⟩, turn := 4, moves := [],
    key := ⟨0, 0⟩, isText := ⟨0, 0⟩, rockIsPushActive := false }

def memoProbeB : GameState :=
  { grid := fun _ _ => 0, baba1 := ⟨2, 2⟩, baba2 := ⟨3, 3⟩, turn := 2, moves := [],
    key := ⟨0, 0⟩, isText := ⟨0, 0⟩, rockIsPushActive := false }

theorem memo_hit_or_update_witness :
    cacheFind [] memoProbeA = none ∧
    gameStateEqual memoProbeA memoProbeB = true ∧
    (memoProcess 10 (memoProcess 10 [] memoProbeA).2 memoProbeB).1 = false ∧
    cacheFind (memoProcess 10 (memoProcess 10 [] memoProbeA).2 memoProbeB).2 memoProbeB
      = some memoProbeB.turn := by
  have h := memo_hit_or_update 10 [] memoProbeA memoProbeB rfl (by decide) (by decide)
    (by decide)
  exact ⟨rfl, by decide, (h.2.2.2 (by decide)).1, (h.2.2.2 (by decide)).2⟩

end BabaSolver
